import Mathlib

/-!
# Verification of the weave compute daemon's request-handling surface

Shallow embedding of the C sources under `src/compute/src/` (`protocol.c`,
`main.c`, `generate.c`, `socket.c`) together with theorems settling the
frozen claims about the wire codec, the per-connection handler, the
generation pipeline and the socket timeouts.

Bytes are modelled as natural numbers (`< 256` on real inputs); byte slices
as `List Nat`.  Machine integers are naturals with explicit `% 2 ^ w` at the
points where the C arithmetic can wrap.  Fallible C functions that return an
`error_code_t` and populate an out-parameter are modelled as `Except` /
tuples returning the updated state explicitly.
-/

namespace Weave

/-- A byte slice, as handed to the decoder (`const uint8_t *data, size_t data_len`).
The list length plays the role of `data_len`. -/
abbrev Bytes := List Nat

/-- `data[i]` for an in-bounds access; out-of-bounds defaults to 0 (the C code
only dereferences in bounds, which the locality theorem for C2 makes precise). -/
def byteAt (data : Bytes) (i : Nat) : Nat := data.getD i 0

/-! ## Protocol constants, from `include/weave/protocol.h` -/

def PROTOCOL_MAGIC : Nat := 0x57455645

def PROTOCOL_VERSION_1 : Nat := 0x0001

def MIN_SUPPORTED_VERSION : Nat := PROTOCOL_VERSION_1

def MAX_SUPPORTED_VERSION : Nat := PROTOCOL_VERSION_1

def MAX_MESSAGE_SIZE : Nat := 10 * 1024 * 1024

def MODEL_ID_SD35 : Nat := 0

def SD35_MIN_DIMENSION : Nat := 64

def SD35_MAX_DIMENSION : Nat := 2048

def SD35_DIMENSION_ALIGNMENT : Nat := 64

def SD35_MIN_STEPS : Nat := 1

def SD35_MAX_STEPS : Nat := 100

def SD35_MIN_PROMPT_LENGTH : Nat := 1

def SD35_MAX_PROMPT_LENGTH : Nat := 256

def MSG_GENERATE_REQUEST : Nat := 0x0001

def MSG_GENERATE_RESPONSE : Nat := 0x0002

def MSG_ERROR : Nat := 0x00FF

def STATUS_OK : Nat := 200

def STATUS_BAD_REQUEST : Nat := 400

def STATUS_INTERNAL_SERVER_ERROR : Nat := 500

def UINT32_MAX : Nat := 4294967295

/-- `error_code_t` from `protocol.h`: the closed error-kind enumeration. -/
inductive ErrorCode where
  | ERR_NONE
  | ERR_INVALID_MAGIC
  | ERR_UNSUPPORTED_VERSION
  | ERR_INVALID_MODEL_ID
  | ERR_INVALID_PROMPT
  | ERR_INVALID_DIMENSIONS
  | ERR_INVALID_STEPS
  | ERR_INVALID_CFG
  | ERR_OUT_OF_MEMORY
  | ERR_GPU_ERROR
  | ERR_TIMEOUT
  | ERR_INTERNAL
  deriving DecidableEq, Repr

/-! ## Big-endian readers and writers, from `protocol.c` -/

def read_u16_be (data : Bytes) (off : Nat) : Nat :=
  byteAt data off * 2 ^ 8 + byteAt data (off + 1)

def read_u32_be (data : Bytes) (off : Nat) : Nat :=
  byteAt data off * 2 ^ 24 + byteAt data (off + 1) * 2 ^ 16 +
    byteAt data (off + 2) * 2 ^ 8 + byteAt data (off + 3)

def read_u64_be (data : Bytes) (off : Nat) : Nat :=
  byteAt data off * 2 ^ 56 + byteAt data (off + 1) * 2 ^ 48 +
    byteAt data (off + 2) * 2 ^ 40 + byteAt data (off + 3) * 2 ^ 32 +
    byteAt data (off + 4) * 2 ^ 24 + byteAt data (off + 5) * 2 ^ 16 +
    byteAt data (off + 6) * 2 ^ 8 + byteAt data (off + 7)

def write_u16_be (v : Nat) : Bytes :=
  [v / 2 ^ 8 % 256, v % 256]

def write_u32_be (v : Nat) : Bytes :=
  [v / 2 ^ 24 % 256, v / 2 ^ 16 % 256, v / 2 ^ 8 % 256, v % 256]

def write_u64_be (v : Nat) : Bytes :=
  [v / 2 ^ 56 % 256, v / 2 ^ 48 % 256, v / 2 ^ 40 % 256, v / 2 ^ 32 % 256,
   v / 2 ^ 24 % 256, v / 2 ^ 16 % 256, v / 2 ^ 8 % 256, v % 256]

/-! ## IEEE-754 binary32 semantics for `cfg_scale`

`read_f32_be` in `protocol.c` reinterprets four big-endian bytes bitwise as a
`float`.  The decoder then evaluates
`cfg < 0.0f || cfg > 20.0f || isnan(cfg) || isinf(cfg)`.
We model the bit pattern as a `Nat < 2 ^ 32` and give the comparisons their
exact IEEE-754 meaning:

* a pattern with exponent field `255` is NaN (nonzero fraction) or ±∞;
* a finite pattern has the exact rational value `± mag / 2 ^ 150` where
  `mag = 2 * frac` for subnormals (value `± frac · 2 ^ (-149)`) and
  `mag = (2 ^ 23 + frac) · 2 ^ exp` for normals (value
  `± (2 ^ 23 + frac) · 2 ^ (exp - 150)`);
* `<` / `>` on floats agree with the exact order on these scaled integers
  (NaN comparisons are false; the C code catches NaN with `isnan`).  The
  scaled-integer formula also orders ±∞ correctly above/below every finite
  value and above `20`, matching the float comparisons on infinities, so
  the same expression is used for all non-NaN patterns.
* `20.0f` is exactly representable: its scaled value is `20 * 2 ^ 150`;
  `0.0f` and `-0.0f` both have scaled value `0`, so `-0.0f < 0.0f` is false,
  exactly as in IEEE arithmetic.
-/

def f32_sign (bits : Nat) : Nat := bits / 2 ^ 31 % 2

def f32_exp (bits : Nat) : Nat := bits / 2 ^ 23 % 2 ^ 8

def f32_frac (bits : Nat) : Nat := bits % 2 ^ 23

def f32_isnan (bits : Nat) : Bool :=
  f32_exp bits = 255 && f32_frac bits ≠ 0

def f32_isinf (bits : Nat) : Bool :=
  f32_exp bits = 255 && f32_frac bits = 0

/-- `2 ^ 150` times the real value of a non-NaN bit pattern (for the exponent
field `255` with zero fraction this yields a huge magnitude standing in for
±∞, which compares above/below every finite scaled value, as ∞ does). -/
def f32_scaled (bits : Nat) : Int :=
  let mag : Nat :=
    if f32_exp bits = 0 then 2 * f32_frac bits
    else (2 ^ 23 + f32_frac bits) * 2 ^ f32_exp bits
  if f32_sign bits = 1 then -(mag : Int) else (mag : Int)

/-- The `cfg_scale` gate of `decode_generate_request` (`protocol.c:248`):
`cfg < SD35_MIN_CFG || cfg > SD35_MAX_CFG || isnan(cfg) || isinf(cfg)`,
with `SD35_MIN_CFG = 0.0f` and `SD35_MAX_CFG = 20.0f`. -/
def cfg_invalid (bits : Nat) : Bool :=
  (!f32_isnan bits && decide (f32_scaled bits < 0)) ||
  (!f32_isnan bits && decide (20 * 2 ^ 150 < f32_scaled bits)) ||
  f32_isnan bits || f32_isinf bits

/-! ## Decoder structures and `decode_protocol_header` / `decode_generate_request` -/

/-- `protocol_header_t`. -/
structure ProtocolHeader where
  magic : Nat
  version : Nat
  msg_type : Nat
  payload_len : Nat
  reserved : Nat
  deriving DecidableEq, Repr

/-- `sd35_generate_request_t`.  `cfg_bits` holds the raw big-endian bit
pattern of the `cfg_scale` float; `prompt_data` in the C struct is a borrow
into the input slice starting at byte `76`, represented here by
`prompt_data_len` (the claims address the prompt region through the
(offset, length) pairs, never through the pointer itself). -/
structure GenerateRequest where
  request_id : Nat
  model_id : Nat
  width : Nat
  height : Nat
  steps : Nat
  cfg_bits : Nat
  seed : Nat
  clip_l_offset : Nat
  clip_l_length : Nat
  clip_g_offset : Nat
  clip_g_length : Nat
  t5_offset : Nat
  t5_length : Nat
  prompt_data_len : Nat
  deriving DecidableEq, Repr

/-- `decode_protocol_header` (`protocol.c:92-122`).  The C populates the
header struct from the five reads and then validates the populated fields;
here the checks name the reads directly and the struct is built at the end,
which yields the same results.  The `data == NULL` guard of the C caller has
no counterpart in the byte-slice model. -/
def decode_protocol_header (data : Bytes) : Except ErrorCode ProtocolHeader :=
  if data.length < 16 then .error .ERR_INTERNAL
  else if read_u32_be data 0 ≠ PROTOCOL_MAGIC then .error .ERR_INVALID_MAGIC
  else if read_u16_be data 4 < MIN_SUPPORTED_VERSION ∨
      MAX_SUPPORTED_VERSION < read_u16_be data 4 then .error .ERR_UNSUPPORTED_VERSION
  else if read_u16_be data 6 ≠ MSG_GENERATE_REQUEST then .error .ERR_INTERNAL
  else if MAX_MESSAGE_SIZE - 16 < read_u32_be data 8 then .error .ERR_INTERNAL
  else .ok
    { magic := read_u32_be data 0
      version := read_u16_be data 4
      msg_type := read_u16_be data 6
      payload_len := read_u32_be data 8
      reserved := read_u32_be data 12 }

/-- `decode_generate_request` (`protocol.c:153-293`), field reads at the same
byte offsets as the C pointer arithmetic (`ptr = data + 16` and onwards).
`remaining` mirrors the C running counter; after the header fields it equals
`payload_len - 12`, and the prompt region is the final `payload_len - 60`
payload bytes. -/
def decode_generate_request (data : Bytes) : Except ErrorCode GenerateRequest :=
  if data.length < 16 then .error .ERR_INTERNAL
  else
    match decode_protocol_header data with
    | .error e => .error e
    | .ok header =>
      if data.length < 16 + header.payload_len then .error .ERR_INTERNAL
      else if header.payload_len < 12 + 48 then .error .ERR_INTERNAL
      -- the C stores each read into `req` and validates the stored fields;
      -- the checks below name the reads directly (the reads are pure and the
      -- fields are never mutated), and `req` is built at the end.
      -- `header.payload_len - 8 - 4` is the running `remaining` counter after
      -- `request_id` and `model_id`; the prompt region is what is left of it
      -- after the 48 parameter bytes.
      else if read_u32_be data 24 ≠ MODEL_ID_SD35 then .error .ERR_INVALID_MODEL_ID
      else if header.payload_len - 8 - 4 < 48 then .error .ERR_INTERNAL
      else if read_u32_be data 28 < SD35_MIN_DIMENSION ∨
          SD35_MAX_DIMENSION < read_u32_be data 28 ∨
          read_u32_be data 28 % SD35_DIMENSION_ALIGNMENT ≠ 0 then
        .error .ERR_INVALID_DIMENSIONS
      else if read_u32_be data 32 < SD35_MIN_DIMENSION ∨
          SD35_MAX_DIMENSION < read_u32_be data 32 ∨
          read_u32_be data 32 % SD35_DIMENSION_ALIGNMENT ≠ 0 then
        .error .ERR_INVALID_DIMENSIONS
      else if read_u32_be data 36 < SD35_MIN_STEPS ∨
          SD35_MAX_STEPS < read_u32_be data 36 then
        .error .ERR_INVALID_STEPS
      else if cfg_invalid (read_u32_be data 40) then
        .error .ERR_INVALID_CFG
      else if read_u32_be data 56 < SD35_MIN_PROMPT_LENGTH ∨
          SD35_MAX_PROMPT_LENGTH < read_u32_be data 56 then
        .error .ERR_INVALID_PROMPT
      else if read_u32_be data 64 < SD35_MIN_PROMPT_LENGTH ∨
          SD35_MAX_PROMPT_LENGTH < read_u32_be data 64 then
        .error .ERR_INVALID_PROMPT
      else if read_u32_be data 72 < SD35_MIN_PROMPT_LENGTH ∨
          SD35_MAX_PROMPT_LENGTH < read_u32_be data 72 then
        .error .ERR_INVALID_PROMPT
      else if header.payload_len - 8 - 4 - 48 < read_u32_be data 52 then
        .error .ERR_INVALID_PROMPT
      else if header.payload_len - 8 - 4 - 48 - read_u32_be data 52 <
          read_u32_be data 56 then
        .error .ERR_INVALID_PROMPT
      else if header.payload_len - 8 - 4 - 48 < read_u32_be data 60 then
        .error .ERR_INVALID_PROMPT
      else if header.payload_len - 8 - 4 - 48 - read_u32_be data 60 <
          read_u32_be data 64 then
        .error .ERR_INVALID_PROMPT
      else if header.payload_len - 8 - 4 - 48 < read_u32_be data 68 then
        .error .ERR_INVALID_PROMPT
      else if header.payload_len - 8 - 4 - 48 - read_u32_be data 68 <
          read_u32_be data 72 then
        .error .ERR_INVALID_PROMPT
      else .ok
        { request_id := read_u64_be data 16
          model_id := read_u32_be data 24
          width := read_u32_be data 28
          height := read_u32_be data 32
          steps := read_u32_be data 36
          cfg_bits := read_u32_be data 40
          seed := read_u64_be data 44
          clip_l_offset := read_u32_be data 52
          clip_l_length := read_u32_be data 56
          clip_g_offset := read_u32_be data 60
          clip_g_length := read_u32_be data 64
          t5_offset := read_u32_be data 68
          t5_length := read_u32_be data 72
          prompt_data_len := header.payload_len - 8 - 4 - 48 }

/-! ## The decode algorithm as the specification words it (for C1) -/

/-- Spec §4.1 gate 8: a dimension is in 64..2048 and divisible by 64. -/
def dimensionOk (d : Nat) : Prop :=
  SD35_MIN_DIMENSION ≤ d ∧ d ≤ SD35_MAX_DIMENSION ∧ d % SD35_DIMENSION_ALIGNMENT = 0

instance (d : Nat) : Decidable (dimensionOk d) := by
  unfold dimensionOk; infer_instance

/-- Spec §4.1 gate 9: steps in 1..100. -/
def stepsOk (s : Nat) : Prop :=
  SD35_MIN_STEPS ≤ s ∧ s ≤ SD35_MAX_STEPS

instance (s : Nat) : Decidable (stepsOk s) := by
  unfold stepsOk; infer_instance

/-- Spec §4.1 gate 11, for one (offset, length) pair: length in 1..256,
offset at most the prompt-region size, and length at most the region size
minus the offset (subtraction on the larger side). -/
def promptPairOk (off len region : Nat) : Prop :=
  SD35_MIN_PROMPT_LENGTH ≤ len ∧ len ≤ SD35_MAX_PROMPT_LENGTH ∧
    off ≤ region ∧ len ≤ region - off

instance (off len region : Nat) : Decidable (promptPairOk off len region) := by
  unfold promptPairOk; infer_instance

/-- The request structure named by the spec's wire layout (§6): fields at
fixed big-endian offsets after the 16-byte header, and a prompt region of
size `payload_len - 60` (payload length equals 12 + 48 + region size). -/
def specRequest (data : Bytes) : GenerateRequest :=
  { request_id := read_u64_be data 16
    model_id := read_u32_be data 24
    width := read_u32_be data 28
    height := read_u32_be data 32
    steps := read_u32_be data 36
    cfg_bits := read_u32_be data 40
    seed := read_u64_be data 44
    clip_l_offset := read_u32_be data 52
    clip_l_length := read_u32_be data 56
    clip_g_offset := read_u32_be data 60
    clip_g_length := read_u32_be data 64
    t5_offset := read_u32_be data 68
    t5_length := read_u32_be data 72
    prompt_data_len := read_u32_be data 8 - 60 }

/-- The decode algorithm exactly as the specification words it (§4.1 "Decode
algorithm, in order — every step is a fail-fast gate that returns the listed
error kind on violation"), the comparison object for claim C1. -/
def decodeSpec (data : Bytes) : Except ErrorCode GenerateRequest :=
  if data.length < 16 then .error .ERR_INTERNAL
  else if read_u32_be data 0 ≠ PROTOCOL_MAGIC then .error .ERR_INVALID_MAGIC
  else if read_u16_be data 4 ≠ PROTOCOL_VERSION_1 then .error .ERR_UNSUPPORTED_VERSION
  else if read_u16_be data 6 ≠ MSG_GENERATE_REQUEST then .error .ERR_INTERNAL
  else if ¬ (read_u32_be data 8 ≤ MAX_MESSAGE_SIZE - 16 ∧
      16 + read_u32_be data 8 ≤ data.length) then .error .ERR_INTERNAL
  else if read_u32_be data 8 < 60 then .error .ERR_INTERNAL
  else if read_u32_be data 24 ≠ MODEL_ID_SD35 then .error .ERR_INVALID_MODEL_ID
  else if ¬ (dimensionOk (specRequest data).width ∧
      dimensionOk (specRequest data).height) then .error .ERR_INVALID_DIMENSIONS
  else if ¬ stepsOk (specRequest data).steps then .error .ERR_INVALID_STEPS
  else if cfg_invalid (specRequest data).cfg_bits then .error .ERR_INVALID_CFG
  else if ¬ (promptPairOk (specRequest data).clip_l_offset
        (specRequest data).clip_l_length (specRequest data).prompt_data_len ∧
      promptPairOk (specRequest data).clip_g_offset
        (specRequest data).clip_g_length (specRequest data).prompt_data_len ∧
      promptPairOk (specRequest data).t5_offset
        (specRequest data).t5_length (specRequest data).prompt_data_len) then
    .error .ERR_INVALID_PROMPT
  else .ok (specRequest data)

/-- Flip bit `bitIdx` of byte `byteIdx` of a frame (spec §8 invariant 3). -/
def flipBit (data : Bytes) (byteIdx bitIdx : Nat) : Bytes :=
  data.set byteIdx (byteAt data byteIdx ^^^ (1 <<< bitIdx))

/-- A concrete valid request frame: 512×512, 28 steps, `cfg_scale` 7.0
(bits `0x40E00000`), seed 0, the three prompts all the 4-byte slice
"test" at offset 0 of a 4-byte prompt region (payload length 64). -/
def validFrame : Bytes :=
  [0x57, 0x45, 0x56, 0x45, 0, 1, 0, 1, 0, 0, 0, 64, 0, 0, 0, 0,
   0, 0, 0, 0, 0, 0, 0, 1,
   0, 0, 0, 0,
   0, 0, 2, 0,
   0, 0, 2, 0,
   0, 0, 0, 28,
   0x40, 0xE0, 0, 0,
   0, 0, 0, 0, 0, 0, 0, 0,
   0, 0, 0, 0,
   0, 0, 0, 4,
   0, 0, 0, 0,
   0, 0, 0, 4,
   0, 0, 0, 0,
   0, 0, 0, 4,
   116, 101, 115, 116]

/-- The request `validFrame` decodes to. -/
def validFrameRequest : GenerateRequest :=
  { request_id := 1, model_id := 0, width := 512, height := 512, steps := 28,
    cfg_bits := 0x40E00000, seed := 0, clip_l_offset := 0, clip_l_length := 4,
    clip_g_offset := 0, clip_g_length := 4, t5_offset := 0, t5_length := 4,
    prompt_data_len := 4 }

/-! ## Encoders: `encode_generate_response` and `encode_error_response`

Both C encoders take `(resp, buffer, buf_size, out_len)` and return an
`error_code_t`, writing into `buffer` and `*out_len` only on the success
path (every validation precedes the first write).  The model takes the
buffer contents (`buf_size` is its length) and returns
`(error code, buffer contents after the call, value stored through out_len)`
with `none` meaning `*out_len` was not written.  A `NULL` struct pointer or
`NULL` image pointer is `none`; the C's `NULL buffer` / `NULL out_len`
guards return `INTERNAL` before any write exactly like the `none` cases. -/

/-- `sd35_generate_response_t`.  `image_data` is `none` for a NULL pointer,
otherwise the pointed-to byte region (of which `image_data_len` bytes are
encoded). -/
structure GenerateResponse where
  request_id : Nat
  status : Nat
  generation_time_ms : Nat
  image_width : Nat
  image_height : Nat
  channels : Nat
  image_data_len : Nat
  image_data : Option Bytes
  deriving DecidableEq, Repr

/-- The frame written by the success path of `encode_generate_response`
(`protocol.c:375-405`): header (magic, version 1, kind = response, payload
length `16 + 16 + image_data_len`, reserved 0), then `request_id`, `status`,
`generation_time_ms`, then `width`, `height`, `channels`,
`image_data_len`, then the first `image_data_len` bytes of the image
buffer (the `memcpy`). -/
def responseFrame (resp : GenerateResponse) (img : Bytes) : Bytes :=
  write_u32_be PROTOCOL_MAGIC ++ write_u16_be PROTOCOL_VERSION_1 ++
    write_u16_be MSG_GENERATE_RESPONSE ++
    write_u32_be (16 + 16 + resp.image_data_len) ++ write_u32_be 0 ++
    write_u64_be resp.request_id ++ write_u32_be resp.status ++
    write_u32_be resp.generation_time_ms ++
    write_u32_be resp.image_width ++ write_u32_be resp.image_height ++
    write_u32_be resp.channels ++ write_u32_be resp.image_data_len ++
    img.take resp.image_data_len

/-- `encode_generate_response` (`protocol.c:325-409`).  The two overflow
guards divide on the larger side exactly as the C does; `pixels` and
`expected_data_len` are 32-bit products (`% 2 ^ 32`), though the guards
ensure they never wrap on the path where they are used. -/
def encode_generate_response (resp? : Option GenerateResponse) (buffer : Bytes) :
    ErrorCode × Bytes × Option Nat :=
  match resp? with
  | none => (.ERR_INTERNAL, buffer, none)
  | some resp =>
    match resp.image_data with
    | none => (.ERR_INTERNAL, buffer, none)
    | some img =>
      if resp.image_width < SD35_MIN_DIMENSION ∨
          SD35_MAX_DIMENSION < resp.image_width ∨
          resp.image_width % SD35_DIMENSION_ALIGNMENT ≠ 0 then
        (.ERR_INVALID_DIMENSIONS, buffer, none)
      else if resp.image_height < SD35_MIN_DIMENSION ∨
          SD35_MAX_DIMENSION < resp.image_height ∨
          resp.image_height % SD35_DIMENSION_ALIGNMENT ≠ 0 then
        (.ERR_INVALID_DIMENSIONS, buffer, none)
      else if resp.channels ≠ 3 ∧ resp.channels ≠ 4 then
        (.ERR_INVALID_DIMENSIONS, buffer, none)
      else if UINT32_MAX / resp.image_height < resp.image_width then
        (.ERR_INVALID_DIMENSIONS, buffer, none)
      else if UINT32_MAX / resp.channels <
          resp.image_width * resp.image_height % 2 ^ 32 then
        (.ERR_INVALID_DIMENSIONS, buffer, none)
      else if resp.image_data_len ≠
          resp.image_width * resp.image_height % 2 ^ 32 * resp.channels % 2 ^ 32 then
        (.ERR_INVALID_DIMENSIONS, buffer, none)
      else if MAX_MESSAGE_SIZE - 16 - 16 < resp.image_data_len then
        (.ERR_INTERNAL, buffer, none)
      else if buffer.length < 16 + (16 + 16 + resp.image_data_len) then
        (.ERR_INTERNAL, buffer, none)
      else
        (.ERR_NONE,
          responseFrame resp img ++ buffer.drop (16 + (16 + 16 + resp.image_data_len)),
          some (16 + (16 + 16 + resp.image_data_len)))

/-- `error_response_t`.  `error_msg` is `none` for a NULL pointer;
`error_msg_len` is a `uint16_t` in the C struct. -/
structure ErrorResponse where
  request_id : Nat
  status : Nat
  error_code : Nat
  error_msg_len : Nat
  error_msg : Option Bytes
  deriving DecidableEq, Repr

/-- The frame written by the success path of `encode_error_response`
(`protocol.c:463-488`): header with kind = error and payload length
`8 + 4 + 4 + 2 + error_msg_len`, then `request_id`, `status`, `error_code`,
`error_msg_len` and (when the length is nonzero) the message bytes. -/
def errorFrame (resp : ErrorResponse) : Bytes :=
  write_u32_be PROTOCOL_MAGIC ++ write_u16_be PROTOCOL_VERSION_1 ++
    write_u16_be MSG_ERROR ++
    write_u32_be (8 + 4 + 4 + 2 + resp.error_msg_len) ++ write_u32_be 0 ++
    write_u64_be resp.request_id ++ write_u32_be resp.status ++
    write_u32_be resp.error_code ++ write_u16_be resp.error_msg_len ++
    (if 0 < resp.error_msg_len then
      (resp.error_msg.getD []).take resp.error_msg_len
    else [])

/-- `encode_error_response` (`protocol.c:440-492`). -/
def encode_error_response (resp? : Option ErrorResponse) (buffer : Bytes) :
    ErrorCode × Bytes × Option Nat :=
  match resp? with
  | none => (.ERR_INTERNAL, buffer, none)
  | some resp =>
    if resp.error_msg = none ∧ 0 < resp.error_msg_len then
      (.ERR_INTERNAL, buffer, none)
    else if MAX_MESSAGE_SIZE - 16 < 8 + 4 + 4 + 2 + resp.error_msg_len then
      (.ERR_INTERNAL, buffer, none)
    else if buffer.length < 16 + (8 + 4 + 4 + 2 + resp.error_msg_len) then
      (.ERR_INTERNAL, buffer, none)
    else
      (.ERR_NONE,
        errorFrame resp ++ buffer.drop (16 + (8 + 4 + 4 + 2 + resp.error_msg_len)),
        some (16 + (8 + 4 + 4 + 2 + resp.error_msg_len)))

/-- Modelled from the spec: the repository's C sources expose no response
decoder (`protocol.c` only encodes responses; the tests read the fields back
by hand), so decoding a response frame is modelled from the spec's words —
§6 *Response payload* (`request_id` u64, `status`, `generation_time_ms`,
`width`, `height`, `channels`, `image_byte_length` u32 each, then raw
pixels) after the §3 frame header (magic, version, kind = response,
payload length ≤ 10 MiB − 16), with the payload length exactly accounting
for the 32 fixed bytes plus the image bytes. -/
def decode_generate_response (data : Bytes) : Except ErrorCode GenerateResponse :=
  if data.length < 16 then .error .ERR_INTERNAL
  else if read_u32_be data 0 ≠ PROTOCOL_MAGIC then .error .ERR_INVALID_MAGIC
  else if read_u16_be data 4 ≠ PROTOCOL_VERSION_1 then .error .ERR_UNSUPPORTED_VERSION
  else if read_u16_be data 6 ≠ MSG_GENERATE_RESPONSE then .error .ERR_INTERNAL
  else if MAX_MESSAGE_SIZE - 16 < read_u32_be data 8 then .error .ERR_INTERNAL
  else if data.length ≠ 16 + read_u32_be data 8 then .error .ERR_INTERNAL
  else if read_u32_be data 8 ≠ 16 + 16 + read_u32_be data 44 then .error .ERR_INTERNAL
  else .ok
    { request_id := read_u64_be data 16
      status := read_u32_be data 24
      generation_time_ms := read_u32_be data 28
      image_width := read_u32_be data 32
      image_height := read_u32_be data 36
      channels := read_u32_be data 40
      image_data_len := read_u32_be data 44
      image_data := some ((data.drop 48).take (read_u32_be data 44)) }

/-! ## Error-status classification (`main.c`) -/

/-- `is_server_error` (`main.c:286-307`): the explicit switch over the
closed enumeration — the four server kinds return true, every listed client
kind (and the defensive `default`) returns false. -/
def is_server_error (code : ErrorCode) : Bool :=
  match code with
  | .ERR_OUT_OF_MEMORY => true
  | .ERR_GPU_ERROR => true
  | .ERR_TIMEOUT => true
  | .ERR_INTERNAL => true
  | .ERR_NONE => false
  | .ERR_INVALID_MAGIC => false
  | .ERR_UNSUPPORTED_VERSION => false
  | .ERR_INVALID_MODEL_ID => false
  | .ERR_INVALID_PROMPT => false
  | .ERR_INVALID_DIMENSIONS => false
  | .ERR_INVALID_STEPS => false
  | .ERR_INVALID_CFG => false

/-- The numeric value of each `error_code_t` constant (`protocol.h:124-137`). -/
def errorCodeValue (code : ErrorCode) : Nat :=
  match code with
  | .ERR_NONE => 0
  | .ERR_INVALID_MAGIC => 1
  | .ERR_UNSUPPORTED_VERSION => 2
  | .ERR_INVALID_MODEL_ID => 3
  | .ERR_INVALID_PROMPT => 4
  | .ERR_INVALID_DIMENSIONS => 5
  | .ERR_INVALID_STEPS => 6
  | .ERR_INVALID_CFG => 7
  | .ERR_OUT_OF_MEMORY => 8
  | .ERR_GPU_ERROR => 9
  | .ERR_TIMEOUT => 10
  | .ERR_INTERNAL => 99

/-- The `error_response_t` built by `send_error_response` (`main.c:318-350`)
before encoding: status 500 exactly when `is_server_error`, else 400; the
message length is `strlen` truncated to `uint16_t`. -/
def send_error_response_struct (request_id : Nat) (code : ErrorCode)
    (msg : Bytes) : ErrorResponse :=
  { request_id := request_id
    status := if is_server_error code then STATUS_INTERNAL_SERVER_ERROR
      else STATUS_BAD_REQUEST
    error_code := errorCodeValue code
    error_msg_len := msg.length % 2 ^ 16
    error_msg := some msg }

/-! ## The per-connection handler (`main.c:375-509`) -/

/-- `MAX_REQUEST_SIZE` (`main.c:44`). -/
def MAX_REQUEST_SIZE : Nat := 10 * 1024 * 1024

/-- The handler's return value: 0 = request processed, keep looping;
-1 = connection closed or fatal, exit the loop. -/
inductive LoopDecision where
  | keepGoing
  | exitLoop
  deriving DecidableEq, Repr

/-- What one `handle_connection` call did: the loop-control decision,
which error frame (echoed id, kind) it attempted to send — the C ignores
`send_error_response`'s result, so a failed error write never changes the
decision — and whether the success response was written. -/
structure HandlerOutcome where
  decision : LoopDecision
  errorFrameSent : Option (Nat × ErrorCode)
  responseSent : Bool
  deriving DecidableEq, Repr

/-- `handle_connection` (`main.c:375-509`).  `input` is the byte stream the
peer delivers before closing, so `read_full` of `n` bytes succeeds exactly
when `n ≤ input.length`; `allocOk` / `reallocOk` model the `malloc` /
`realloc` outcomes; `pipeline` is `process_generate_request`'s
result on the decoded request; `respWriteOk` models `write_full` of the
encoded response.  The response is encoded into the reallocated buffer of
exactly `16 + 16 + 16 + image_data_len` bytes, as in the C. -/
def handle_connection (input : Bytes) (allocOk reallocOk : Bool)
    (pipeline : GenerateRequest → Except ErrorCode GenerateResponse)
    (respWriteOk : Bool) : HandlerOutcome :=
  if input.length < 16 then
    { decision := .exitLoop, errorFrameSent := none, responseSent := false }
  else if read_u32_be input 0 ≠ PROTOCOL_MAGIC then
    { decision := .keepGoing, errorFrameSent := some (0, .ERR_INVALID_MAGIC),
      responseSent := false }
  else if MAX_REQUEST_SIZE - 16 < read_u32_be input 8 then
    { decision := .keepGoing, errorFrameSent := some (0, .ERR_INTERNAL),
      responseSent := false }
  else if ¬ allocOk then
    { decision := .exitLoop, errorFrameSent := none, responseSent := false }
  else if input.length < 16 + read_u32_be input 8 then
    { decision := .exitLoop, errorFrameSent := none, responseSent := false }
  else
    match decode_generate_request (input.take (16 + read_u32_be input 8)) with
    | .error e =>
      { decision := .keepGoing, errorFrameSent := some (0, e), responseSent := false }
    | .ok req =>
      match pipeline req with
      | .error e =>
        { decision := .keepGoing, errorFrameSent := some (req.request_id, e),
          responseSent := false }
      | .ok resp =>
        if ¬ reallocOk then
          { decision := .exitLoop, errorFrameSent := none, responseSent := false }
        else if (encode_generate_response (some resp)
            (List.replicate (16 + 16 + 16 + resp.image_data_len) 0)).1 ≠ .ERR_NONE then
          { decision := .exitLoop, errorFrameSent := none, responseSent := false }
        else if ¬ respWriteOk then
          { decision := .exitLoop, errorFrameSent := none, responseSent := false }
        else
          { decision := .keepGoing, errorFrameSent := none, responseSent := true }

/-! ## The generation pipeline (`generate.c`) -/

/-- `sd_wrapper_error_t` as consumed by `map_sd_error`. -/
inductive SdError where
  | ok
  | invalidParam
  | outOfMemory
  | gpuError
  | modelNotFound
  | modelCorrupt
  | initFailed
  | generationFailed
  deriving DecidableEq, Repr

/-- `map_sd_error` (`generate.c:78-104`): status and protocol error kind for
each engine error. -/
def map_sd_error (e : SdError) : Nat × ErrorCode :=
  match e with
  | .ok => (STATUS_OK, .ERR_NONE)
  | .invalidParam => (STATUS_BAD_REQUEST, .ERR_INVALID_PROMPT)
  | .outOfMemory => (STATUS_INTERNAL_SERVER_ERROR, .ERR_OUT_OF_MEMORY)
  | .gpuError => (STATUS_INTERNAL_SERVER_ERROR, .ERR_GPU_ERROR)
  | .modelNotFound => (STATUS_INTERNAL_SERVER_ERROR, .ERR_INTERNAL)
  | .modelCorrupt => (STATUS_INTERNAL_SERVER_ERROR, .ERR_INTERNAL)
  | .initFailed => (STATUS_INTERNAL_SERVER_ERROR, .ERR_INTERNAL)
  | .generationFailed => (STATUS_INTERNAL_SERVER_ERROR, .ERR_INTERNAL)

/-- The image record `sd_wrapper_generate` fills (`sd_wrapper_image_t`);
`dataPresent` models `image.data != NULL`. -/
structure EngineImage where
  width : Nat
  height : Nat
  channels : Nat
  data_size : Nat
  dataPresent : Bool
  deriving DecidableEq, Repr

/-- The validation half of `convert_request_params` (`generate.c:35-69`):
prompt pointer present, CLIP-L length nonzero and below the 257-byte local
buffer, and the CLIP-L slice inside the prompt region — the offset+length
sum is 32-bit addition, which can wrap (the C adds two `uint32_t`), hence
the `% 2 ^ 32`. -/
def convert_request_params (req : GenerateRequest) (promptPresent : Bool) : ErrorCode :=
  if ¬ promptPresent then .ERR_INVALID_PROMPT
  else if req.clip_l_length = 0 ∨
      SD35_MAX_PROMPT_LENGTH + 1 ≤ req.clip_l_length then .ERR_INVALID_PROMPT
  else if req.prompt_data_len <
      (req.clip_l_offset + req.clip_l_length) % 2 ^ 32 then .ERR_INVALID_PROMPT
  else .ERR_NONE

/-- What one `process_generate_request` call did: its error code, the value
of the process-wide `generation_performed` flag after the call, and whether
`sd_wrapper_reset` / `sd_wrapper_generate` were invoked. -/
structure PipelineOutcome where
  err : ErrorCode
  generationPerformedAfter : Bool
  resetInvoked : Bool
  generateInvoked : Bool
  deriving DecidableEq, Repr

/-- `process_generate_request` (`generate.c:153-258`) with the static
`generation_performed` flag threaded explicitly.  `ctxPresent` models the
`ctx != NULL` guard (the `req` / `resp` NULL guards behave identically:
`INTERNAL` before any engine call, flag untouched); `promptPresent` models
`req->prompt_data != NULL`; `resetOk` is `sd_wrapper_reset`'s result and
`(genErr, image)` is what `sd_wrapper_generate` returns and fills. -/
def process_generate_request (generationPerformed : Bool) (ctxPresent : Bool)
    (req : GenerateRequest) (promptPresent : Bool) (resetOk : Bool)
    (genErr : SdError) (image : EngineImage) : PipelineOutcome :=
  if ¬ ctxPresent then
    ⟨.ERR_INTERNAL, generationPerformed, false, false⟩
  else if convert_request_params req promptPresent ≠ .ERR_NONE then
    ⟨convert_request_params req promptPresent, generationPerformed, false, false⟩
  else if generationPerformed ∧ ¬ resetOk then
    ⟨.ERR_INTERNAL, generationPerformed, true, false⟩
  else if (map_sd_error genErr).2 ≠ .ERR_NONE then
    ⟨(map_sd_error genErr).2, generationPerformed, generationPerformed, true⟩
  else if ¬ image.dataPresent then
    ⟨.ERR_INTERNAL, generationPerformed, generationPerformed, true⟩
  else if image.width ≠ req.width ∨ image.height ≠ req.height then
    ⟨.ERR_INTERNAL, generationPerformed, generationPerformed, true⟩
  else if image.width < SD35_MIN_DIMENSION ∨ SD35_MAX_DIMENSION < image.width ∨
      image.width % 64 ≠ 0 then
    ⟨.ERR_INTERNAL, generationPerformed, generationPerformed, true⟩
  else if image.height < SD35_MIN_DIMENSION ∨ SD35_MAX_DIMENSION < image.height ∨
      image.height % 64 ≠ 0 then
    ⟨.ERR_INTERNAL, generationPerformed, generationPerformed, true⟩
  else if image.channels ≠ 3 ∧ image.channels ≠ 4 then
    ⟨.ERR_INTERNAL, generationPerformed, generationPerformed, true⟩
  else if UINT32_MAX < image.data_size then
    ⟨.ERR_INTERNAL, generationPerformed, generationPerformed, true⟩
  else
    ⟨.ERR_NONE, true, generationPerformed, true⟩

/-! ## Socket timeouts and one accept-loop iteration (`socket.c`) -/

/-- `socket_error_t`, restricted to the members these models produce. -/
inductive SocketError where
  | ok
  | invalidFd
  | timeoutFailed
  deriving DecidableEq, Repr

/-- `DEFAULT_READ_TIMEOUT_S` (`socket.c:62`). -/
def DEFAULT_READ_TIMEOUT_S : Int := 60

/-- `DEFAULT_WRITE_TIMEOUT_S` (`socket.c:63`). -/
def DEFAULT_WRITE_TIMEOUT_S : Int := 5

/-- `socket_set_timeouts` (`socket.c:518-548`).  The socket's
(receive, send) timeouts are threaded as state; `rcvOk` / `sndOk` model the
two `setsockopt` calls.  Each timeout is applied only when the argument is
strictly positive — zero or negative arguments skip the corresponding
`setsockopt` entirely and are not an error. -/
def socket_set_timeouts (fd : Int) (readTimeout writeTimeout : Int)
    (rcvOk sndOk : Bool) (st : Int × Int) : SocketError × (Int × Int) :=
  if fd < 0 then (.invalidFd, st)
  else if 0 < readTimeout ∧ ¬ rcvOk then (.timeoutFailed, st)
  else
    if 0 < writeTimeout ∧ ¬ sndOk then
      (.timeoutFailed, if 0 < readTimeout then (readTimeout, st.2) else st)
    else
      (.ok,
        if 0 < writeTimeout then
          ((if 0 < readTimeout then (readTimeout, st.2) else st).1, writeTimeout)
        else if 0 < readTimeout then (readTimeout, st.2) else st)

/-- What one `socket_accept_loop` iteration (`socket.c:650-689`) does with
an accepted connection: whether `socket_set_timeouts` was called (and with
which arguments) and whether the handler ran. -/
structure AcceptIterationTrace where
  timeoutsCall : Option (Int × Int)
  handlerRan : Bool
  deriving DecidableEq, Repr

/-- One `socket_accept_loop` iteration after a successful `accept`:
authentication failure closes the socket and continues without touching
timeouts or the handler; success sets the default 60 s / 5 s timeouts
(failure there only logs a warning) and runs the handler. -/
def socket_accept_iteration (authOk : Bool) : AcceptIterationTrace :=
  if ¬ authOk then ⟨none, false⟩
  else ⟨some (DEFAULT_READ_TIMEOUT_S, DEFAULT_WRITE_TIMEOUT_S), true⟩

set_option maxHeartbeats 1600000 in
/-- The source decoder is extensionally the spec's gate cascade. -/
theorem decode_eq_decodeSpec (data : Bytes) :
    decode_generate_request data = decodeSpec data := by
  by_cases h1 : data.length < 16
  · simp only [decode_generate_request, decodeSpec, if_pos h1]
  simp only [decode_generate_request, decodeSpec, decode_protocol_header, if_neg h1]
  by_cases h2 : read_u32_be data 0 ≠ PROTOCOL_MAGIC
  · simp only [if_pos h2]
  simp only [if_neg h2]
  by_cases h3 : read_u16_be data 4 ≠ PROTOCOL_VERSION_1
  · have h3l : read_u16_be data 4 < MIN_SUPPORTED_VERSION ∨
        MAX_SUPPORTED_VERSION < read_u16_be data 4 := by
      unfold MIN_SUPPORTED_VERSION MAX_SUPPORTED_VERSION PROTOCOL_VERSION_1 at *
      omega
    simp only [if_pos h3l, if_pos h3]
  have h3l : ¬ (read_u16_be data 4 < MIN_SUPPORTED_VERSION ∨
      MAX_SUPPORTED_VERSION < read_u16_be data 4) := by
    unfold MIN_SUPPORTED_VERSION MAX_SUPPORTED_VERSION PROTOCOL_VERSION_1 at *
    omega
  simp only [if_neg h3l, if_neg h3]
  by_cases h4 : read_u16_be data 6 ≠ MSG_GENERATE_REQUEST
  · simp only [if_pos h4]
  simp only [if_neg h4]
  by_cases h5 : MAX_MESSAGE_SIZE - 16 < read_u32_be data 8
  · have h5l : ¬ (read_u32_be data 8 ≤ MAX_MESSAGE_SIZE - 16 ∧
        16 + read_u32_be data 8 ≤ data.length) := by omega
    simp only [if_pos h5, if_pos h5l]
  simp only [if_neg h5]
  by_cases h6 : data.length < 16 + read_u32_be data 8
  · have h6l : ¬ (read_u32_be data 8 ≤ MAX_MESSAGE_SIZE - 16 ∧
        16 + read_u32_be data 8 ≤ data.length) := by omega
    simp only [if_pos h6, if_pos h6l]
  have h6l : ¬ ¬ (read_u32_be data 8 ≤ MAX_MESSAGE_SIZE - 16 ∧
      16 + read_u32_be data 8 ≤ data.length) := by omega
  simp only [if_neg h6, if_neg h6l]
  by_cases h7 : read_u32_be data 8 < 12 + 48
  · have h7l : read_u32_be data 8 < 60 := by omega
    simp only [if_pos h7, if_pos h7l]
  have h7l : ¬ read_u32_be data 8 < 60 := by omega
  simp only [if_neg h7, if_neg h7l]
  by_cases h8 : read_u32_be data 24 ≠ MODEL_ID_SD35
  · simp only [if_pos h8]
  simp only [if_neg h8]
  have h9 : ¬ read_u32_be data 8 - 8 - 4 < 48 := by omega
  simp only [if_neg h9]
  simp only [specRequest]
  by_cases h10 : read_u32_be data 28 < SD35_MIN_DIMENSION ∨
      SD35_MAX_DIMENSION < read_u32_be data 28 ∨
      read_u32_be data 28 % SD35_DIMENSION_ALIGNMENT ≠ 0
  · have h10l : ¬ (dimensionOk (read_u32_be data 28) ∧
        dimensionOk (read_u32_be data 32)) := by
      unfold dimensionOk SD35_MIN_DIMENSION SD35_MAX_DIMENSION
        SD35_DIMENSION_ALIGNMENT at h10 ⊢
      omega
    simp only [if_pos h10, if_pos h10l]
  simp only [if_neg h10]
  by_cases h11 : read_u32_be data 32 < SD35_MIN_DIMENSION ∨
      SD35_MAX_DIMENSION < read_u32_be data 32 ∨
      read_u32_be data 32 % SD35_DIMENSION_ALIGNMENT ≠ 0
  · have h11l : ¬ (dimensionOk (read_u32_be data 28) ∧
        dimensionOk (read_u32_be data 32)) := by
      unfold dimensionOk SD35_MIN_DIMENSION SD35_MAX_DIMENSION
        SD35_DIMENSION_ALIGNMENT at h11 ⊢
      omega
    simp only [if_pos h11, if_pos h11l]
  have h11l : ¬ ¬ (dimensionOk (read_u32_be data 28) ∧
      dimensionOk (read_u32_be data 32)) := by
    unfold dimensionOk SD35_MIN_DIMENSION SD35_MAX_DIMENSION
      SD35_DIMENSION_ALIGNMENT at h10 h11 ⊢
    omega
  simp only [if_neg h11, if_neg h11l]
  by_cases h12 : read_u32_be data 36 < SD35_MIN_STEPS ∨
      SD35_MAX_STEPS < read_u32_be data 36
  · have h12l : ¬ stepsOk (read_u32_be data 36) := by
      unfold stepsOk SD35_MIN_STEPS SD35_MAX_STEPS at h12 ⊢; omega
    simp only [if_pos h12, if_pos h12l]
  have h12l : ¬ ¬ stepsOk (read_u32_be data 36) := by
    unfold stepsOk SD35_MIN_STEPS SD35_MAX_STEPS at h12 ⊢; omega
  simp only [if_neg h12, if_neg h12l]
  by_cases h13 : cfg_invalid (read_u32_be data 40)
  · simp only [if_pos h13]
  simp only [if_neg h13]
  by_cases h14 : promptPairOk (read_u32_be data 52) (read_u32_be data 56)
        (read_u32_be data 8 - 60) ∧
      promptPairOk (read_u32_be data 60) (read_u32_be data 64)
        (read_u32_be data 8 - 60) ∧
      promptPairOk (read_u32_be data 68) (read_u32_be data 72)
        (read_u32_be data 8 - 60)
  · simp only [if_neg (show ¬ ¬ _ from not_not_intro h14)]
    clear h3l h6l h7l h11l h12l h1 h2 h3 h4 h5 h6 h7 h8 h9 h10 h11 h12 h13
    unfold promptPairOk SD35_MIN_PROMPT_LENGTH SD35_MAX_PROMPT_LENGTH at h14
    simp only [SD35_MIN_PROMPT_LENGTH, SD35_MAX_PROMPT_LENGTH]
    split_ifs with ha hb hc hd he hf hg hh hi
    · exfalso; omega
    · exfalso; omega
    · exfalso; omega
    · exfalso; omega
    · exfalso; omega
    · exfalso; omega
    · exfalso; omega
    · exfalso; omega
    · exfalso; omega
    · simp only [Except.ok.injEq, GenerateRequest.mk.injEq, and_true, true_and]
      omega
  · simp only [if_pos (show ¬ _ from h14)]
    clear h3l h6l h7l h11l h12l h1 h2 h3 h4 h5 h6 h7 h8 h9 h10 h11 h12 h13
    unfold promptPairOk SD35_MIN_PROMPT_LENGTH SD35_MAX_PROMPT_LENGTH at h14
    simp only [SD35_MIN_PROMPT_LENGTH, SD35_MAX_PROMPT_LENGTH]
    split_ifs with ha hb hc hd he hf hg hh hi
    all_goals first | rfl | (exfalso; omega)

/-! ## Helper lemmas about byte access -/

theorem byteAt_set_ne (l : Bytes) (i j v : Nat) (h : i ≠ j) :
    byteAt (l.set i v) j = byteAt l j := by
  simp [byteAt, List.getD, List.getElem?_set_ne h]

theorem byteAt_set_self (l : Bytes) (i v : Nat) (h : i < l.length) :
    byteAt (l.set i v) i = v := by
  simp [byteAt, List.getD, List.getElem?_set_eq_of_lt _ h]

theorem xor_shift_ne (x k : Nat) (hk : k ≠ 0) : x ^^^ k ≠ x := by
  intro he
  have hx : x ^^^ (x ^^^ k) = x ^^^ x := by rw [he]
  simp [← Nat.xor_assoc] at hx
  omega

theorem one_shiftLeft_ne_zero (i : Nat) : 1 <<< i ≠ 0 := by
  simp [Nat.one_shiftLeft]

theorem read_u16_be_congr (a b : Bytes) (off : Nat)
    (h : ∀ j, off ≤ j → j < off + 2 → byteAt a j = byteAt b j) :
    read_u16_be a off = read_u16_be b off := by
  unfold read_u16_be
  rw [h off (by omega) (by omega), h (off + 1) (by omega) (by omega)]

theorem read_u32_be_congr (a b : Bytes) (off : Nat)
    (h : ∀ j, off ≤ j → j < off + 4 → byteAt a j = byteAt b j) :
    read_u32_be a off = read_u32_be b off := by
  unfold read_u32_be
  rw [h off (by omega) (by omega), h (off + 1) (by omega) (by omega),
    h (off + 2) (by omega) (by omega), h (off + 3) (by omega) (by omega)]

theorem read_u64_be_congr (a b : Bytes) (off : Nat)
    (h : ∀ j, off ≤ j → j < off + 8 → byteAt a j = byteAt b j) :
    read_u64_be a off = read_u64_be b off := by
  unfold read_u64_be
  rw [h off (by omega) (by omega), h (off + 1) (by omega) (by omega),
    h (off + 2) (by omega) (by omega), h (off + 3) (by omega) (by omega),
    h (off + 4) (by omega) (by omega), h (off + 5) (by omega) (by omega),
    h (off + 6) (by omega) (by omega), h (off + 7) (by omega) (by omega)]

set_option maxHeartbeats 1600000 in
/-- Inversion of a successful decode: the returned request is the wire-layout
request and every gate of the cascade passed. -/
theorem decode_ok_inv {data : Bytes} {req : GenerateRequest}
    (h : decode_generate_request data = .ok req) :
    specRequest data = req ∧
    16 ≤ data.length ∧
    read_u32_be data 0 = PROTOCOL_MAGIC ∧
    read_u16_be data 4 = PROTOCOL_VERSION_1 ∧
    read_u16_be data 6 = MSG_GENERATE_REQUEST ∧
    read_u32_be data 8 ≤ MAX_MESSAGE_SIZE - 16 ∧
    16 + read_u32_be data 8 ≤ data.length ∧
    60 ≤ read_u32_be data 8 ∧
    read_u32_be data 24 = MODEL_ID_SD35 ∧
    dimensionOk (specRequest data).width ∧
    dimensionOk (specRequest data).height ∧
    stepsOk (specRequest data).steps ∧
    cfg_invalid (specRequest data).cfg_bits = false ∧
    promptPairOk (specRequest data).clip_l_offset (specRequest data).clip_l_length
      (specRequest data).prompt_data_len ∧
    promptPairOk (specRequest data).clip_g_offset (specRequest data).clip_g_length
      (specRequest data).prompt_data_len ∧
    promptPairOk (specRequest data).t5_offset (specRequest data).t5_length
      (specRequest data).prompt_data_len := by
  rw [decode_eq_decodeSpec] at h
  unfold decodeSpec at h
  by_cases h1 : data.length < 16
  · rw [if_pos h1] at h; exact Except.noConfusion h
  rw [if_neg h1] at h
  by_cases h2 : read_u32_be data 0 ≠ PROTOCOL_MAGIC
  · rw [if_pos h2] at h; exact Except.noConfusion h
  rw [if_neg h2] at h
  by_cases h3 : read_u16_be data 4 ≠ PROTOCOL_VERSION_1
  · rw [if_pos h3] at h; exact Except.noConfusion h
  rw [if_neg h3] at h
  by_cases h4 : read_u16_be data 6 ≠ MSG_GENERATE_REQUEST
  · rw [if_pos h4] at h; exact Except.noConfusion h
  rw [if_neg h4] at h
  by_cases h5 : ¬ (read_u32_be data 8 ≤ MAX_MESSAGE_SIZE - 16 ∧
      16 + read_u32_be data 8 ≤ data.length)
  · rw [if_pos h5] at h; exact Except.noConfusion h
  rw [if_neg h5] at h
  by_cases h6 : read_u32_be data 8 < 60
  · rw [if_pos h6] at h; exact Except.noConfusion h
  rw [if_neg h6] at h
  by_cases h7 : read_u32_be data 24 ≠ MODEL_ID_SD35
  · rw [if_pos h7] at h; exact Except.noConfusion h
  rw [if_neg h7] at h
  by_cases h8 : ¬ (dimensionOk (specRequest data).width ∧
      dimensionOk (specRequest data).height)
  · rw [if_pos h8] at h; exact Except.noConfusion h
  rw [if_neg h8] at h
  by_cases h9 : ¬ stepsOk (specRequest data).steps
  · rw [if_pos h9] at h; exact Except.noConfusion h
  rw [if_neg h9] at h
  by_cases h10 : cfg_invalid (specRequest data).cfg_bits = true
  · rw [if_pos h10] at h; exact Except.noConfusion h
  rw [if_neg h10] at h
  by_cases h11 : ¬ (promptPairOk (specRequest data).clip_l_offset
        (specRequest data).clip_l_length (specRequest data).prompt_data_len ∧
      promptPairOk (specRequest data).clip_g_offset
        (specRequest data).clip_g_length (specRequest data).prompt_data_len ∧
      promptPairOk (specRequest data).t5_offset
        (specRequest data).t5_length (specRequest data).prompt_data_len)
  · rw [if_pos h11] at h; exact Except.noConfusion h
  rw [if_neg h11] at h
  refine ⟨Except.ok.inj h, by omega, by omega, by omega, by omega,
    (not_not.mp h5).1, (not_not.mp h5).2, by omega, by omega,
    (not_not.mp h8).1, (not_not.mp h8).2, not_not.mp h9, by simpa using h10,
    (not_not.mp h11).1, (not_not.mp h11).2.1, (not_not.mp h11).2.2⟩

/-- Whole-cascade locality: the decoder's result depends only on the slice
length and the bytes of the frame `data[0 .. 16 + payload_len)`; it never
reads a byte outside that window. -/
theorem decode_locality (data data' : Bytes) (hlen : data.length = data'.length)
    (hagree : ∀ i, i < 16 + read_u32_be data 8 → byteAt data i = byteAt data' i) :
    decode_generate_request data = decode_generate_request data' := by
  rw [decode_eq_decodeSpec, decode_eq_decodeSpec]
  have e0 : read_u32_be data' 0 = read_u32_be data 0 :=
    read_u32_be_congr _ _ _ (fun j _ h2 => (hagree j (by omega)).symm)
  have e4 : read_u16_be data' 4 = read_u16_be data 4 :=
    read_u16_be_congr _ _ _ (fun j h1 h2 => (hagree j (by omega)).symm)
  have e6 : read_u16_be data' 6 = read_u16_be data 6 :=
    read_u16_be_congr _ _ _ (fun j h1 h2 => (hagree j (by omega)).symm)
  have e8 : read_u32_be data' 8 = read_u32_be data 8 :=
    read_u32_be_congr _ _ _ (fun j h1 h2 => (hagree j (by omega)).symm)
  simp only [decodeSpec, specRequest]
  rw [e0, e4, e6, e8, ← hlen]
  by_cases c1 : data.length < 16
  · simp only [if_pos c1]
  simp only [if_neg c1]
  by_cases c2 : read_u32_be data 0 ≠ PROTOCOL_MAGIC
  · simp only [if_pos c2]
  simp only [if_neg c2]
  by_cases c3 : read_u16_be data 4 ≠ PROTOCOL_VERSION_1
  · simp only [if_pos c3]
  simp only [if_neg c3]
  by_cases c4 : read_u16_be data 6 ≠ MSG_GENERATE_REQUEST
  · simp only [if_pos c4]
  simp only [if_neg c4]
  by_cases c5 : ¬ (read_u32_be data 8 ≤ MAX_MESSAGE_SIZE - 16 ∧
      16 + read_u32_be data 8 ≤ data.length)
  · simp only [if_pos c5]
  simp only [if_neg c5]
  by_cases c6 : read_u32_be data 8 < 60
  · simp only [if_pos c6]
  simp only [if_neg c6]
  have e16 : read_u64_be data' 16 = read_u64_be data 16 :=
    read_u64_be_congr _ _ _ (fun j h1 h2 => (hagree j (by omega)).symm)
  have e24 : read_u32_be data' 24 = read_u32_be data 24 :=
    read_u32_be_congr _ _ _ (fun j h1 h2 => (hagree j (by omega)).symm)
  have e28 : read_u32_be data' 28 = read_u32_be data 28 :=
    read_u32_be_congr _ _ _ (fun j h1 h2 => (hagree j (by omega)).symm)
  have e32 : read_u32_be data' 32 = read_u32_be data 32 :=
    read_u32_be_congr _ _ _ (fun j h1 h2 => (hagree j (by omega)).symm)
  have e36 : read_u32_be data' 36 = read_u32_be data 36 :=
    read_u32_be_congr _ _ _ (fun j h1 h2 => (hagree j (by omega)).symm)
  have e40 : read_u32_be data' 40 = read_u32_be data 40 :=
    read_u32_be_congr _ _ _ (fun j h1 h2 => (hagree j (by omega)).symm)
  have e44 : read_u64_be data' 44 = read_u64_be data 44 :=
    read_u64_be_congr _ _ _ (fun j h1 h2 => (hagree j (by omega)).symm)
  have e52 : read_u32_be data' 52 = read_u32_be data 52 :=
    read_u32_be_congr _ _ _ (fun j h1 h2 => (hagree j (by omega)).symm)
  have e56 : read_u32_be data' 56 = read_u32_be data 56 :=
    read_u32_be_congr _ _ _ (fun j h1 h2 => (hagree j (by omega)).symm)
  have e60 : read_u32_be data' 60 = read_u32_be data 60 :=
    read_u32_be_congr _ _ _ (fun j h1 h2 => (hagree j (by omega)).symm)
  have e64 : read_u32_be data' 64 = read_u32_be data 64 :=
    read_u32_be_congr _ _ _ (fun j h1 h2 => (hagree j (by omega)).symm)
  have e68 : read_u32_be data' 68 = read_u32_be data 68 :=
    read_u32_be_congr _ _ _ (fun j h1 h2 => (hagree j (by omega)).symm)
  have e72 : read_u32_be data' 72 = read_u32_be data 72 :=
    read_u32_be_congr _ _ _ (fun j h1 h2 => (hagree j (by omega)).symm)
  rw [e16, e24, e28, e32, e36, e40, e44, e52, e56, e60, e64, e68, e72]

/-! ## Claim theorems -/

/-- C1: for every input byte slice, `decode_generate_request` applies the
validation gates in the specified order and returns the error kind of the
first violated gate — short slice, oversized / truncated / undersized
payload and wrong message kind give `INTERNAL`; wrong magic gives
`INVALID_MAGIC`; unsupported version gives `UNSUPPORTED_VERSION`; nonzero
`model_id` gives `INVALID_MODEL_ID`; bad dimensions, steps, `cfg_scale`
(NaN, ±∞ or out of [0, 20]) and prompt pairs give `INVALID_DIMENSIONS`,
`INVALID_STEPS`, `INVALID_CFG` and `INVALID_PROMPT`; and only an input
passing every gate decodes successfully (`decodeSpec` is literally the
spec's gate cascade). -/
theorem weave_c1_decode_gate_cascade (data : Bytes) :
    decode_generate_request data = decodeSpec data :=
  decode_eq_decodeSpec data

/-- C2: prompt (offset, length) validation is sound and the decoder is
local to the frame.  (a) On success each prompt length is in 1..256, each
offset is at most the prompt-region size, each length is at most the region
size minus the offset — hence each addressed slice lies inside the prompt
region — and the whole region lies inside the input slice.  (b) The result
depends only on the bytes below `16 + payload_len` (the decoder never reads
outside that window).  (c) When every earlier gate passes, any violation of
the pair conditions yields `INVALID_PROMPT`. -/
theorem weave_c2_prompt_validation :
    (∀ (data : Bytes) (req : GenerateRequest),
      decode_generate_request data = .ok req →
      (SD35_MIN_PROMPT_LENGTH ≤ req.clip_l_length ∧
        req.clip_l_length ≤ SD35_MAX_PROMPT_LENGTH ∧
        req.clip_l_offset ≤ req.prompt_data_len ∧
        req.clip_l_length ≤ req.prompt_data_len - req.clip_l_offset ∧
        req.clip_l_offset + req.clip_l_length ≤ req.prompt_data_len) ∧
      (SD35_MIN_PROMPT_LENGTH ≤ req.clip_g_length ∧
        req.clip_g_length ≤ SD35_MAX_PROMPT_LENGTH ∧
        req.clip_g_offset ≤ req.prompt_data_len ∧
        req.clip_g_length ≤ req.prompt_data_len - req.clip_g_offset ∧
        req.clip_g_offset + req.clip_g_length ≤ req.prompt_data_len) ∧
      (SD35_MIN_PROMPT_LENGTH ≤ req.t5_length ∧
        req.t5_length ≤ SD35_MAX_PROMPT_LENGTH ∧
        req.t5_offset ≤ req.prompt_data_len ∧
        req.t5_length ≤ req.prompt_data_len - req.t5_offset ∧
        req.t5_offset + req.t5_length ≤ req.prompt_data_len) ∧
      76 + req.prompt_data_len ≤ data.length) ∧
    (∀ (data data' : Bytes), data.length = data'.length →
      (∀ i, i < 16 + read_u32_be data 8 → byteAt data i = byteAt data' i) →
      decode_generate_request data = decode_generate_request data') ∧
    (∀ data : Bytes, 16 ≤ data.length →
      read_u32_be data 0 = PROTOCOL_MAGIC →
      read_u16_be data 4 = PROTOCOL_VERSION_1 →
      read_u16_be data 6 = MSG_GENERATE_REQUEST →
      read_u32_be data 8 ≤ MAX_MESSAGE_SIZE - 16 →
      16 + read_u32_be data 8 ≤ data.length →
      60 ≤ read_u32_be data 8 →
      read_u32_be data 24 = MODEL_ID_SD35 →
      dimensionOk (specRequest data).width →
      dimensionOk (specRequest data).height →
      stepsOk (specRequest data).steps →
      cfg_invalid (specRequest data).cfg_bits = false →
      ¬ (promptPairOk (specRequest data).clip_l_offset
          (specRequest data).clip_l_length (specRequest data).prompt_data_len ∧
        promptPairOk (specRequest data).clip_g_offset
          (specRequest data).clip_g_length (specRequest data).prompt_data_len ∧
        promptPairOk (specRequest data).t5_offset
          (specRequest data).t5_length (specRequest data).prompt_data_len) →
      decode_generate_request data = .error .ERR_INVALID_PROMPT) := by
  refine ⟨?_, fun data data' => decode_locality data data', ?_⟩
  · intro data req h
    obtain ⟨he, _, _, _, _, _, hfit, hp60, _, _, _, _, _, hl, hg, ht⟩ := decode_ok_inv h
    rw [he] at hl hg ht
    unfold promptPairOk at hl hg ht
    have hpdl : req.prompt_data_len = read_u32_be data 8 - 60 := by
      rw [← he]; rfl
    refine ⟨⟨hl.1, hl.2.1, hl.2.2.1, hl.2.2.2, by omega⟩,
      ⟨hg.1, hg.2.1, hg.2.2.1, hg.2.2.2, by omega⟩,
      ⟨ht.1, ht.2.1, ht.2.2.1, ht.2.2.2, by omega⟩, by omega⟩
  · intro data hlen hmag hver hkind hcap htrunc hp60 hmodel hdw hdh hsteps hcfg hviol
    rw [decode_eq_decodeSpec]
    unfold decodeSpec
    rw [if_neg (by omega), if_neg (not_not_intro hmag), if_neg (not_not_intro hver),
      if_neg (not_not_intro hkind), if_neg (not_not_intro ⟨hcap, htrunc⟩),
      if_neg (by omega), if_neg (not_not_intro hmodel),
      if_neg (not_not_intro ⟨hdw, hdh⟩), if_neg (not_not_intro hsteps),
      if_neg (by simp [hcfg]), if_pos hviol]

set_option maxRecDepth 40000 in
set_option maxHeartbeats 1600000 in
/-- Witness for C2 at concrete inputs: part (a) on `validFrame`; part (b) on
`validFrame` with a byte appended beyond the frame window changed; part (c)
on `validFrame` with its CLIP-L length field zeroed. -/
theorem weave_c2_prompt_validation_witness :
    (SD35_MIN_PROMPT_LENGTH ≤ validFrameRequest.clip_l_length ∧
      validFrameRequest.clip_l_length ≤ SD35_MAX_PROMPT_LENGTH ∧
      validFrameRequest.clip_l_offset ≤ validFrameRequest.prompt_data_len ∧
      validFrameRequest.clip_l_length ≤
        validFrameRequest.prompt_data_len - validFrameRequest.clip_l_offset ∧
      validFrameRequest.clip_l_offset + validFrameRequest.clip_l_length ≤
        validFrameRequest.prompt_data_len) ∧
    decode_generate_request (validFrame ++ [7]) =
      decode_generate_request (validFrame ++ [250]) ∧
    decode_generate_request (validFrame.set 59 0) = .error .ERR_INVALID_PROMPT := by
  refine ⟨((weave_c2_prompt_validation.1 validFrame validFrameRequest (by rfl)).1),
    weave_c2_prompt_validation.2.1 (validFrame ++ [7]) (validFrame ++ [250])
      (by rfl) (by decide),
    weave_c2_prompt_validation.2.2 (validFrame.set 59 0)
      (by decide) (by decide) (by decide) (by decide) (by decide) (by decide)
      (by decide) (by decide) (by decide) (by decide) (by decide) (by rfl)
      (by decide)⟩

/-! ## Bit flips in the header (C6) -/

theorem decodeSpec_invalid_magic {d : Bytes} (hl : ¬ d.length < 16)
    (hm : read_u32_be d 0 ≠ PROTOCOL_MAGIC) :
    decodeSpec d = .error .ERR_INVALID_MAGIC := by
  unfold decodeSpec; rw [if_neg hl, if_pos hm]

theorem decodeSpec_unsupported_version {d : Bytes} (hl : ¬ d.length < 16)
    (hm : read_u32_be d 0 = PROTOCOL_MAGIC)
    (hv : read_u16_be d 4 ≠ PROTOCOL_VERSION_1) :
    decodeSpec d = .error .ERR_UNSUPPORTED_VERSION := by
  unfold decodeSpec; rw [if_neg hl, if_neg (not_not_intro hm), if_pos hv]

theorem decodeSpec_wrong_kind {d : Bytes} (hl : ¬ d.length < 16)
    (hm : read_u32_be d 0 = PROTOCOL_MAGIC)
    (hv : read_u16_be d 4 = PROTOCOL_VERSION_1)
    (hk : read_u16_be d 6 ≠ MSG_GENERATE_REQUEST) :
    decodeSpec d = .error .ERR_INTERNAL := by
  unfold decodeSpec
  rw [if_neg hl, if_neg (not_not_intro hm), if_neg (not_not_intro hv), if_pos hk]

/-- C6: starting from any frame that decodes successfully, flipping any
single bit of the magic field (bytes 0..3) makes the decoder return
`INVALID_MAGIC`, flipping any bit of the version field (bytes 4..5) returns
`UNSUPPORTED_VERSION`, flipping any bit of the message-kind field
(bytes 6..7) returns `INTERNAL` (the kind gate's listed error), and no such
flip ever decodes successfully. -/
theorem weave_c6_header_bit_flip (data : Bytes) (req : GenerateRequest)
    (h : decode_generate_request data = .ok req) (b i : Nat)
    (hb : b < 8) (_hi : i < 8) :
    decode_generate_request (flipBit data b i) =
      .error (if b < 4 then .ERR_INVALID_MAGIC
        else if b < 6 then .ERR_UNSUPPORTED_VERSION else .ERR_INTERNAL) ∧
    ∀ req', decode_generate_request (flipBit data b i) ≠ .ok req' := by
  obtain ⟨_, hlen16, hmag, hver, hkind, _, hfit, hp60, _⟩ := decode_ok_inv h
  have hblen : b < data.length := by omega
  have hfliplen : ¬ (flipBit data b i).length < 16 := by
    unfold flipBit; rw [List.length_set]; omega
  have hne : byteAt (flipBit data b i) b ≠ byteAt data b := by
    unfold flipBit
    rw [byteAt_set_self _ _ _ hblen]
    exact xor_shift_ne _ _ (one_shiftLeft_ne_zero i)
  have hother : ∀ j, j ≠ b → byteAt (flipBit data b i) j = byteAt data j := by
    intro j hj
    unfold flipBit
    exact byteAt_set_ne _ _ _ _ (fun hbj => hj hbj.symm)
  have hres : decode_generate_request (flipBit data b i) =
      .error (if b < 4 then .ERR_INVALID_MAGIC
        else if b < 6 then .ERR_UNSUPPORTED_VERSION else .ERR_INTERNAL) := by
    rw [decode_eq_decodeSpec]
    interval_cases b
    · rw [decodeSpec_invalid_magic hfliplen ?_]
      · norm_num
      unfold read_u32_be at hmag ⊢
      norm_num at hmag ⊢
      rw [hother 1 (by norm_num), hother 2 (by norm_num), hother 3 (by norm_num)]
      omega
    · rw [decodeSpec_invalid_magic hfliplen ?_]
      · norm_num
      unfold read_u32_be at hmag ⊢
      norm_num at hmag ⊢
      rw [hother 0 (by norm_num), hother 2 (by norm_num), hother 3 (by norm_num)]
      omega
    · rw [decodeSpec_invalid_magic hfliplen ?_]
      · norm_num
      unfold read_u32_be at hmag ⊢
      norm_num at hmag ⊢
      rw [hother 0 (by norm_num), hother 1 (by norm_num), hother 3 (by norm_num)]
      omega
    · rw [decodeSpec_invalid_magic hfliplen ?_]
      · norm_num
      unfold read_u32_be at hmag ⊢
      norm_num at hmag ⊢
      rw [hother 0 (by norm_num), hother 1 (by norm_num), hother 2 (by norm_num)]
      omega
    · rw [decodeSpec_unsupported_version hfliplen ?_ ?_]
      · norm_num
      · unfold read_u32_be at hmag ⊢
        norm_num at hmag ⊢
        rw [hother 0 (by norm_num), hother 1 (by norm_num), hother 2 (by norm_num),
          hother 3 (by norm_num)]
        omega
      unfold read_u16_be at hver ⊢
      norm_num at hver ⊢
      rw [hother 5 (by norm_num)]
      omega
    · rw [decodeSpec_unsupported_version hfliplen ?_ ?_]
      · norm_num
      · unfold read_u32_be at hmag ⊢
        norm_num at hmag ⊢
        rw [hother 0 (by norm_num), hother 1 (by norm_num), hother 2 (by norm_num),
          hother 3 (by norm_num)]
        omega
      unfold read_u16_be at hver ⊢
      norm_num at hver ⊢
      rw [hother 4 (by norm_num)]
      omega
    · rw [decodeSpec_wrong_kind hfliplen ?_ ?_ ?_]
      · norm_num
      · unfold read_u32_be at hmag ⊢
        norm_num at hmag ⊢
        rw [hother 0 (by norm_num), hother 1 (by norm_num), hother 2 (by norm_num),
          hother 3 (by norm_num)]
        omega
      · unfold read_u16_be at hver ⊢
        norm_num at hver ⊢
        rw [hother 4 (by norm_num), hother 5 (by norm_num)]
        omega
      unfold read_u16_be at hkind ⊢
      norm_num at hkind ⊢
      rw [hother 7 (by norm_num)]
      omega
    · rw [decodeSpec_wrong_kind hfliplen ?_ ?_ ?_]
      · norm_num
      · unfold read_u32_be at hmag ⊢
        norm_num at hmag ⊢
        rw [hother 0 (by norm_num), hother 1 (by norm_num), hother 2 (by norm_num),
          hother 3 (by norm_num)]
        omega
      · unfold read_u16_be at hver ⊢
        norm_num at hver ⊢
        rw [hother 4 (by norm_num), hother 5 (by norm_num)]
        omega
      unfold read_u16_be at hkind ⊢
      norm_num at hkind ⊢
      rw [hother 6 (by norm_num)]
      omega
  refine ⟨hres, fun req' hcon => ?_⟩
  rw [hres] at hcon
  exact Except.noConfusion hcon

set_option maxRecDepth 40000 in
/-- Witness for C6: flipping bit 0 of the magic byte, bit 3 of a version
byte and bit 7 of a kind byte of the concrete `validFrame`. -/
theorem weave_c6_header_bit_flip_witness :
    (decode_generate_request (flipBit validFrame 0 0) =
        .error (if 0 < 4 then .ERR_INVALID_MAGIC
          else if 0 < 6 then .ERR_UNSUPPORTED_VERSION else .ERR_INTERNAL) ∧
      ∀ req', decode_generate_request (flipBit validFrame 0 0) ≠ .ok req') ∧
    (decode_generate_request (flipBit validFrame 5 3) =
        .error (if 5 < 4 then .ERR_INVALID_MAGIC
          else if 5 < 6 then .ERR_UNSUPPORTED_VERSION else .ERR_INTERNAL) ∧
      ∀ req', decode_generate_request (flipBit validFrame 5 3) ≠ .ok req') ∧
    (decode_generate_request (flipBit validFrame 7 7) =
        .error (if 7 < 4 then .ERR_INVALID_MAGIC
          else if 7 < 6 then .ERR_UNSUPPORTED_VERSION else .ERR_INTERNAL) ∧
      ∀ req', decode_generate_request (flipBit validFrame 7 7) ≠ .ok req') :=
  ⟨weave_c6_header_bit_flip validFrame validFrameRequest (by rfl) 0 0
      (by decide) (by decide),
    weave_c6_header_bit_flip validFrame validFrameRequest (by rfl) 5 3
      (by decide) (by decide),
    weave_c6_header_bit_flip validFrame validFrameRequest (by rfl) 7 7
      (by decide) (by decide)⟩

/-! ## Status classification (C5) -/

/-- C5: the status placed in an outgoing error frame is derived from the
error kind by the explicit `is_server_error` table: the seven client kinds
map to 400, the four server kinds map to 500, the frame's status field is
exactly this classification, and no status other than 400 or 500 is ever
produced. -/
theorem weave_c5_status_table :
    (∀ (rid : Nat) (msg : Bytes),
      (send_error_response_struct rid .ERR_INVALID_MAGIC msg).status = 400 ∧
      (send_error_response_struct rid .ERR_UNSUPPORTED_VERSION msg).status = 400 ∧
      (send_error_response_struct rid .ERR_INVALID_MODEL_ID msg).status = 400 ∧
      (send_error_response_struct rid .ERR_INVALID_PROMPT msg).status = 400 ∧
      (send_error_response_struct rid .ERR_INVALID_DIMENSIONS msg).status = 400 ∧
      (send_error_response_struct rid .ERR_INVALID_STEPS msg).status = 400 ∧
      (send_error_response_struct rid .ERR_INVALID_CFG msg).status = 400 ∧
      (send_error_response_struct rid .ERR_OUT_OF_MEMORY msg).status = 500 ∧
      (send_error_response_struct rid .ERR_GPU_ERROR msg).status = 500 ∧
      (send_error_response_struct rid .ERR_TIMEOUT msg).status = 500 ∧
      (send_error_response_struct rid .ERR_INTERNAL msg).status = 500) ∧
    (∀ (rid : Nat) (msg : Bytes) (code : ErrorCode),
      (send_error_response_struct rid code msg).status =
        if is_server_error code then STATUS_INTERNAL_SERVER_ERROR
        else STATUS_BAD_REQUEST) ∧
    (∀ (rid : Nat) (msg : Bytes) (code : ErrorCode),
      (send_error_response_struct rid code msg).status = 400 ∨
      (send_error_response_struct rid code msg).status = 500) := by
  refine ⟨fun rid msg => ⟨rfl, rfl, rfl, rfl, rfl, rfl, rfl, rfl, rfl, rfl, rfl⟩,
    fun rid msg code => rfl, fun rid msg code => ?_⟩
  cases code <;>
    simp [send_error_response_struct, is_server_error, STATUS_BAD_REQUEST,
      STATUS_INTERNAL_SERVER_ERROR]

/-! ## Encoder atomicity (C10) -/

/-- C10: both encoders are atomic on failure — whenever
`encode_generate_response` or `encode_error_response` returns anything but
`ERR_NONE` (NULL arguments, invalid fields, oversized message, too-small
buffer), the caller's output buffer is unchanged and `out_len` was not
written; every validation completes before the first write. -/
theorem weave_c10_encoders_atomic :
    (∀ (resp? : Option GenerateResponse) (buffer : Bytes),
      (encode_generate_response resp? buffer).1 ≠ .ERR_NONE →
      (encode_generate_response resp? buffer).2.1 = buffer ∧
      (encode_generate_response resp? buffer).2.2 = none) ∧
    (∀ (resp? : Option ErrorResponse) (buffer : Bytes),
      (encode_error_response resp? buffer).1 ≠ .ERR_NONE →
      (encode_error_response resp? buffer).2.1 = buffer ∧
      (encode_error_response resp? buffer).2.2 = none) := by
  constructor
  · intro resp? buffer h
    rcases resp? with _ | resp
    · exact ⟨rfl, rfl⟩
    rcases himg : resp.image_data with _ | img
    · simp [encode_generate_response, himg]
    simp only [encode_generate_response, himg] at h ⊢
    split_ifs at h ⊢ <;> simp_all
  · intro resp? buffer h
    rcases resp? with _ | resp
    · exact ⟨rfl, rfl⟩
    simp only [encode_error_response] at h ⊢
    split_ifs at h ⊢ <;> simp_all

/-- Witness for C10: a response whose data length mismatches its dimensions
and an error response with a NULL message but nonzero length, over concrete
buffers. -/
theorem weave_c10_encoders_atomic_witness :
    ((encode_generate_response (some
        { request_id := 1, status := 200, generation_time_ms := 5,
          image_width := 64, image_height := 64, channels := 3,
          image_data_len := 7, image_data := some [1, 2, 3] })
        [9, 9, 9]).2.1 = [9, 9, 9] ∧
      (encode_generate_response (some
        { request_id := 1, status := 200, generation_time_ms := 5,
          image_width := 64, image_height := 64, channels := 3,
          image_data_len := 7, image_data := some [1, 2, 3] })
        [9, 9, 9]).2.2 = none) ∧
    ((encode_error_response (some
        { request_id := 0, status := 400, error_code := 1,
          error_msg_len := 3, error_msg := none }) [5, 5]).2.1 = [5, 5] ∧
      (encode_error_response (some
        { request_id := 0, status := 400, error_code := 1,
          error_msg_len := 3, error_msg := none }) [5, 5]).2.2 = none) :=
  ⟨weave_c10_encoders_atomic.1 _ _ (by decide),
    weave_c10_encoders_atomic.2 _ _ (by decide)⟩

/-! ## Socket timeouts (C8) -/

/-- Counterexample to C8 as stated: a negative timeout value is not
rejected — `socket_set_timeouts` on a valid descriptor with both timeouts
negative returns `SOCKET_OK` and changes nothing (the `> 0` guards skip the
`setsockopt` calls entirely, so no error path can fire). -/
theorem weave_c8_negative_not_rejected :
    socket_set_timeouts 3 (-1) (-2) true true (7, 8) = (.ok, (7, 8)) := by
  decide

/-- C8 (amended): the accept loop applies `socket_set_timeouts` with the
60 s receive / 5 s send defaults right after successful authentication (and
not on rejected peers); a zero — or, equally, any non-positive — timeout
value leaves the corresponding timeout unchanged and is not an error; the
only rejected argument is a negative file descriptor (`INVALID_FD`). -/
theorem weave_c8_timeouts :
    (socket_accept_iteration true = ⟨some (60, 5), true⟩) ∧
    (socket_accept_iteration false = ⟨none, false⟩) ∧
    (∀ (fd : Int) (st : Int × Int), 0 ≤ fd →
      socket_set_timeouts fd DEFAULT_READ_TIMEOUT_S DEFAULT_WRITE_TIMEOUT_S
        true true st = (.ok, (60, 5))) ∧
    (∀ (fd rt wt : Int) (rcvOk sndOk : Bool) (st : Int × Int), 0 ≤ fd →
      rt ≤ 0 → wt ≤ 0 →
      socket_set_timeouts fd rt wt rcvOk sndOk st = (.ok, st)) ∧
    (∀ (fd rt wt : Int) (rcvOk sndOk : Bool) (st : Int × Int), fd < 0 →
      socket_set_timeouts fd rt wt rcvOk sndOk st = (.invalidFd, st)) := by
  refine ⟨rfl, rfl, ?_, ?_, ?_⟩
  · intro fd st hfd
    unfold socket_set_timeouts DEFAULT_READ_TIMEOUT_S DEFAULT_WRITE_TIMEOUT_S
    rw [if_neg (by omega)]
    norm_num
  · intro fd rt wt rcvOk sndOk st hfd hrt hwt
    unfold socket_set_timeouts
    rw [if_neg (by omega), if_neg (by simp; omega),
      if_neg (by simp; omega), if_neg (by omega), if_neg (by omega)]
  · intro fd rt wt rcvOk sndOk st hfd
    unfold socket_set_timeouts
    rw [if_pos hfd]

/-- Witness for C8 (amended) at concrete inputs. -/
theorem weave_c8_timeouts_witness :
    socket_set_timeouts 3 DEFAULT_READ_TIMEOUT_S DEFAULT_WRITE_TIMEOUT_S
      true true (0, 0) = (.ok, (60, 5)) ∧
    socket_set_timeouts 3 0 0 true true (11, 12) = (.ok, (11, 12)) ∧
    socket_set_timeouts (-1) 60 5 true true (0, 0) = (.invalidFd, (0, 0)) :=
  ⟨weave_c8_timeouts.2.2.1 3 (0, 0) (by decide),
    weave_c8_timeouts.2.2.2.1 3 0 0 true true (11, 12) (by decide) (by decide)
      (by decide),
    weave_c8_timeouts.2.2.2.2 (-1) 60 5 true true (0, 0) (by decide)⟩

/-! ## Reset discipline of the generation pipeline (C9) -/

set_option maxHeartbeats 1600000 in
/-- C9: `sd_wrapper_reset` is invoked exactly when a prior generation has
completed in this process — never on the very first call (flag clear), and
whenever `sd_wrapper_generate` runs with the flag set; the
`generation_performed` flag after the call is the old flag joined with this
call's full success, so a failed generation leaves a clear flag clear and
does not trigger a reset before the next attempt. -/
theorem weave_c9_reset_discipline (flag ctx promptPresent resetOk : Bool)
    (req : GenerateRequest) (genErr : SdError) (image : EngineImage)
    (out : PipelineOutcome)
    (hout : process_generate_request flag ctx req promptPresent resetOk
      genErr image = out) :
    (flag = false → out.resetInvoked = false) ∧
    (out.resetInvoked = true → flag = true) ∧
    (out.generateInvoked = true → out.resetInvoked = flag) ∧
    (out.generationPerformedAfter = (flag || decide (out.err = .ERR_NONE))) ∧
    (flag = false → (out.generationPerformedAfter = true ↔ out.err = .ERR_NONE)) := by
  subst hout
  unfold process_generate_request
  split_ifs <;> cases flag <;> simp_all

/-- Witness for C9: a first call (flag clear) that succeeds end to end, on
a well-formed engine image. -/
theorem weave_c9_reset_discipline_witness :
    (false = false →
      (process_generate_request false true validFrameRequest true true .ok
        ⟨512, 512, 3, 786432, true⟩).resetInvoked = false) ∧
    (false = false →
      ((process_generate_request false true validFrameRequest true true .ok
        ⟨512, 512, 3, 786432, true⟩).generationPerformedAfter = true ↔
       (process_generate_request false true validFrameRequest true true .ok
        ⟨512, 512, 3, 786432, true⟩).err = .ERR_NONE)) :=
  ⟨(weave_c9_reset_discipline false true true true validFrameRequest .ok
      ⟨512, 512, 3, 786432, true⟩ _ rfl).1,
    (weave_c9_reset_discipline false true true true validFrameRequest .ok
      ⟨512, 512, 3, 786432, true⟩ _ rfl).2.2.2.2⟩

/-! ## Loop control in the per-connection handler (C3) -/

/-- C3: protocol errors (bad magic, oversized payload claim, decode
failure) and engine errors each send an error frame and return
"keep going", so the request loop survives them; a short read of the
16-byte header exits the loop with no frame sent; a failed write of the
response also exits the loop.  Consequently no fully-delivered malformed
request can terminate the loop. -/
theorem weave_c3_loop_control :
    (∀ (input : Bytes) (a r w : Bool)
      (p : GenerateRequest → Except ErrorCode GenerateResponse),
      input.length < 16 →
      handle_connection input a r p w = ⟨.exitLoop, none, false⟩) ∧
    (∀ (input : Bytes) (a r w : Bool)
      (p : GenerateRequest → Except ErrorCode GenerateResponse),
      16 ≤ input.length → read_u32_be input 0 ≠ PROTOCOL_MAGIC →
      handle_connection input a r p w =
        ⟨.keepGoing, some (0, .ERR_INVALID_MAGIC), false⟩) ∧
    (∀ (input : Bytes) (a r w : Bool)
      (p : GenerateRequest → Except ErrorCode GenerateResponse),
      16 ≤ input.length → read_u32_be input 0 = PROTOCOL_MAGIC →
      MAX_REQUEST_SIZE - 16 < read_u32_be input 8 →
      handle_connection input a r p w =
        ⟨.keepGoing, some (0, .ERR_INTERNAL), false⟩) ∧
    (∀ (input : Bytes) (r w : Bool)
      (p : GenerateRequest → Except ErrorCode GenerateResponse) (e : ErrorCode),
      16 ≤ input.length → read_u32_be input 0 = PROTOCOL_MAGIC →
      read_u32_be input 8 ≤ MAX_REQUEST_SIZE - 16 →
      16 + read_u32_be input 8 ≤ input.length →
      decode_generate_request (input.take (16 + read_u32_be input 8)) = .error e →
      handle_connection input true r p w = ⟨.keepGoing, some (0, e), false⟩) ∧
    (∀ (input : Bytes) (r w : Bool)
      (p : GenerateRequest → Except ErrorCode GenerateResponse)
      (req : GenerateRequest) (e : ErrorCode),
      16 ≤ input.length → read_u32_be input 0 = PROTOCOL_MAGIC →
      read_u32_be input 8 ≤ MAX_REQUEST_SIZE - 16 →
      16 + read_u32_be input 8 ≤ input.length →
      decode_generate_request (input.take (16 + read_u32_be input 8)) = .ok req →
      p req = .error e →
      handle_connection input true r p w =
        ⟨.keepGoing, some (req.request_id, e), false⟩) ∧
    (∀ (input : Bytes)
      (p : GenerateRequest → Except ErrorCode GenerateResponse)
      (req : GenerateRequest) (resp : GenerateResponse),
      16 ≤ input.length → read_u32_be input 0 = PROTOCOL_MAGIC →
      read_u32_be input 8 ≤ MAX_REQUEST_SIZE - 16 →
      16 + read_u32_be input 8 ≤ input.length →
      decode_generate_request (input.take (16 + read_u32_be input 8)) = .ok req →
      p req = .ok resp →
      (encode_generate_response (some resp)
        (List.replicate (16 + 16 + 16 + resp.image_data_len) 0)).1 = .ERR_NONE →
      handle_connection input true true p false = ⟨.exitLoop, none, false⟩) ∧
    (∀ (input : Bytes) (r w : Bool)
      (p : GenerateRequest → Except ErrorCode GenerateResponse) (e : ErrorCode),
      16 + read_u32_be input 8 ≤ input.length →
      decode_generate_request (input.take (16 + read_u32_be input 8)) = .error e →
      (handle_connection input true r p w).decision = .keepGoing) := by
  refine ⟨?_, ?_, ?_, ?_, ?_, ?_, ?_⟩
  · intro input a r w p h
    unfold handle_connection
    rw [if_pos h]
  · intro input a r w p h16 hmag
    unfold handle_connection
    rw [if_neg (by omega), if_pos hmag]
  · intro input a r w p h16 hmag hbig
    unfold handle_connection
    rw [if_neg (by omega), if_neg (not_not_intro hmag), if_pos hbig]
  · intro input r w p e h16 hmag hcap hfull hdec
    unfold handle_connection
    rw [if_neg (by omega), if_neg (not_not_intro hmag), if_neg (by omega)]
    rw [if_neg (by simp), if_neg (by omega)]
    rw [hdec]
  · intro input r w p req e h16 hmag hcap hfull hdec hpipe
    unfold handle_connection
    rw [if_neg (by omega), if_neg (not_not_intro hmag), if_neg (by omega)]
    rw [if_neg (by simp), if_neg (by omega), hdec]
    simp only [hpipe]
  · intro input p req resp h16 hmag hcap hfull hdec hpipe henc
    unfold handle_connection
    rw [if_neg (by omega), if_neg (not_not_intro hmag), if_neg (by omega)]
    rw [if_neg (by simp), if_neg (by omega), hdec]
    simp only [hpipe]
    rw [if_neg (by simp), if_neg (by simp [henc]), if_pos (by simp)]
  · intro input r w p e hfull hdec
    unfold handle_connection
    by_cases h16 : input.length < 16
    · omega
    rw [if_neg h16]
    by_cases hmag : read_u32_be input 0 ≠ PROTOCOL_MAGIC
    · rw [if_pos hmag]
    rw [if_neg hmag]
    by_cases hbig : MAX_REQUEST_SIZE - 16 < read_u32_be input 8
    · rw [if_pos hbig]
    rw [if_neg hbig, if_neg (by simp), if_neg (by omega), hdec]

set_option maxRecDepth 40000 in
set_option maxHeartbeats 1600000 in
/-- Witness for C3 at concrete inputs: a truncated header, a bad-magic
frame, a decode failure (valid header, zeroed CLIP-L length), an engine
error on a valid request, and a failed response write. -/
theorem weave_c3_loop_control_witness :
    handle_connection [1, 2, 3] true true (fun _ => .error .ERR_GPU_ERROR) true =
      ⟨.exitLoop, none, false⟩ ∧
    handle_connection (222 :: validFrame.drop 1) true true
      (fun _ => .error .ERR_GPU_ERROR) true =
      ⟨.keepGoing, some (0, .ERR_INVALID_MAGIC), false⟩ ∧
    handle_connection (validFrame.set 59 0) true true
      (fun _ => .error .ERR_GPU_ERROR) true =
      ⟨.keepGoing, some (0, .ERR_INVALID_PROMPT), false⟩ ∧
    handle_connection validFrame true true (fun _ => .error .ERR_GPU_ERROR) true =
      ⟨.keepGoing, some (1, .ERR_GPU_ERROR), false⟩ ∧
    (handle_connection (validFrame.set 59 0) true true
      (fun _ => .error .ERR_GPU_ERROR) true).decision = .keepGoing := by
  refine ⟨weave_c3_loop_control.1 [1, 2, 3] true true true _ (by decide),
    weave_c3_loop_control.2.1 (222 :: validFrame.drop 1) true true true _
      (by decide) (by decide),
    ?_, ?_,
    weave_c3_loop_control.2.2.2.2.2.2 (validFrame.set 59 0) true true _
      .ERR_INVALID_PROMPT (by decide) (by rfl)⟩
  · exact weave_c3_loop_control.2.2.2.1 (validFrame.set 59 0) true true _
      .ERR_INVALID_PROMPT (by decide) (by decide) (by decide) (by decide) (by rfl)
  · exact weave_c3_loop_control.2.2.2.2.1 validFrame true true _
      validFrameRequest .ERR_GPU_ERROR (by decide) (by decide) (by decide)
      (by decide) (by rfl) (by rfl)

/-! ## Reading back an encoded response frame (C4, C7)

The frame is a concatenation of small written chunks.  The combinators
below read a big-endian field off the front of a chunk or skip a chunk
(all definitional on the explicit chunk lists), so the field reads of a
response frame evaluate by chained rewriting; the side conditions are the
32/64-bit ranges of the C struct fields. -/

theorem read_u16_of_chunk2 (c0 c1 : Nat) (rest : Bytes) :
    read_u16_be ([c0, c1] ++ rest) 0 = c0 * 2 ^ 8 + c1 := rfl

theorem read_u16_skip2 (c0 c1 : Nat) (rest : Bytes) (n : Nat) :
    read_u16_be ([c0, c1] ++ rest) (n + 2) = read_u16_be rest n := rfl

theorem read_u16_skip4 (c0 c1 c2 c3 : Nat) (rest : Bytes) (n : Nat) :
    read_u16_be ([c0, c1, c2, c3] ++ rest) (n + 4) = read_u16_be rest n := rfl

theorem read_u32_of_chunk4 (c0 c1 c2 c3 : Nat) (rest : Bytes) :
    read_u32_be ([c0, c1, c2, c3] ++ rest) 0 =
      c0 * 2 ^ 24 + c1 * 2 ^ 16 + c2 * 2 ^ 8 + c3 := rfl

theorem read_u32_skip2 (c0 c1 : Nat) (rest : Bytes) (n : Nat) :
    read_u32_be ([c0, c1] ++ rest) (n + 2) = read_u32_be rest n := rfl

theorem read_u32_skip4 (c0 c1 c2 c3 : Nat) (rest : Bytes) (n : Nat) :
    read_u32_be ([c0, c1, c2, c3] ++ rest) (n + 4) = read_u32_be rest n := rfl

theorem read_u32_skip8 (c0 c1 c2 c3 c4 c5 c6 c7 : Nat) (rest : Bytes) (n : Nat) :
    read_u32_be ([c0, c1, c2, c3, c4, c5, c6, c7] ++ rest) (n + 8) =
      read_u32_be rest n := rfl

theorem read_u64_of_chunk8 (c0 c1 c2 c3 c4 c5 c6 c7 : Nat) (rest : Bytes) :
    read_u64_be ([c0, c1, c2, c3, c4, c5, c6, c7] ++ rest) 0 =
      c0 * 2 ^ 56 + c1 * 2 ^ 48 + c2 * 2 ^ 40 + c3 * 2 ^ 32 +
        c4 * 2 ^ 24 + c5 * 2 ^ 16 + c6 * 2 ^ 8 + c7 := rfl

theorem read_u64_skip2 (c0 c1 : Nat) (rest : Bytes) (n : Nat) :
    read_u64_be ([c0, c1] ++ rest) (n + 2) = read_u64_be rest n := rfl

theorem read_u64_skip4 (c0 c1 c2 c3 : Nat) (rest : Bytes) (n : Nat) :
    read_u64_be ([c0, c1, c2, c3] ++ rest) (n + 4) = read_u64_be rest n := rfl

theorem drop_chunk2 (c0 c1 : Nat) (rest : Bytes) (n : Nat) :
    ([c0, c1] ++ rest).drop (n + 2) = rest.drop n := rfl

theorem drop_chunk4 (c0 c1 c2 c3 : Nat) (rest : Bytes) (n : Nat) :
    ([c0, c1, c2, c3] ++ rest).drop (n + 4) = rest.drop n := rfl

theorem drop_chunk8 (c0 c1 c2 c3 c4 c5 c6 c7 : Nat) (rest : Bytes) (n : Nat) :
    ([c0, c1, c2, c3, c4, c5, c6, c7] ++ rest).drop (n + 8) = rest.drop n := rfl

/-- `responseFrame` with the concatenation right-associated (the chunk
combinators peel from the left). -/
theorem responseFrame_assoc (resp : GenerateResponse) (img : Bytes) :
    responseFrame resp img =
      write_u32_be PROTOCOL_MAGIC ++ (write_u16_be PROTOCOL_VERSION_1 ++
        (write_u16_be MSG_GENERATE_RESPONSE ++
        (write_u32_be (16 + 16 + resp.image_data_len) ++ (write_u32_be 0 ++
        (write_u64_be resp.request_id ++ (write_u32_be resp.status ++
        (write_u32_be resp.generation_time_ms ++
        (write_u32_be resp.image_width ++ (write_u32_be resp.image_height ++
        (write_u32_be resp.channels ++ (write_u32_be resp.image_data_len ++
          img.take resp.image_data_len))))))))))) := by
  simp only [responseFrame, List.append_assoc]

theorem read_u32_of_write (v : Nat) (hv : v < 2 ^ 32) (rest : Bytes) :
    read_u32_be (write_u32_be v ++ rest) 0 = v := by
  simp only [write_u32_be, read_u32_of_chunk4]
  omega

theorem responseFrame_read0 (resp : GenerateResponse) (img : Bytes) :
    read_u32_be (responseFrame resp img) 0 = PROTOCOL_MAGIC := by
  rw [responseFrame_assoc, read_u32_of_write PROTOCOL_MAGIC (by norm_num [PROTOCOL_MAGIC])]

theorem responseFrame_read4 (resp : GenerateResponse) (img : Bytes) :
    read_u16_be (responseFrame resp img) 4 = PROTOCOL_VERSION_1 := by
  rw [responseFrame_assoc]
  simp only [write_u32_be, write_u16_be, write_u64_be, read_u16_skip4,
    read_u16_of_chunk2]
  decide

theorem responseFrame_read6 (resp : GenerateResponse) (img : Bytes) :
    read_u16_be (responseFrame resp img) 6 = MSG_GENERATE_RESPONSE := by
  rw [responseFrame_assoc]
  simp only [write_u32_be, write_u16_be, write_u64_be, read_u16_skip4,
    read_u16_skip2, read_u16_of_chunk2]
  decide

theorem responseFrame_read8 (resp : GenerateResponse) (img : Bytes)
    (hlen : resp.image_data_len < 2 ^ 32 - 32) :
    read_u32_be (responseFrame resp img) 8 = 16 + 16 + resp.image_data_len := by
  rw [responseFrame_assoc]
  simp only [write_u32_be, write_u16_be, write_u64_be, read_u32_skip4,
    read_u32_skip2, read_u32_of_chunk4]
  omega

theorem responseFrame_read16 (resp : GenerateResponse) (img : Bytes)
    (hrid : resp.request_id < 2 ^ 64) :
    read_u64_be (responseFrame resp img) 16 = resp.request_id := by
  rw [responseFrame_assoc]
  simp only [write_u32_be, write_u16_be, write_u64_be, read_u64_skip4,
    read_u64_skip2, read_u64_of_chunk8]
  omega

theorem responseFrame_read24 (resp : GenerateResponse) (img : Bytes)
    (hst : resp.status < 2 ^ 32) :
    read_u32_be (responseFrame resp img) 24 = resp.status := by
  rw [responseFrame_assoc]
  simp only [write_u32_be, write_u16_be, write_u64_be, read_u32_skip4,
    read_u32_skip2, read_u32_skip8, read_u32_of_chunk4]
  omega

theorem responseFrame_read28 (resp : GenerateResponse) (img : Bytes)
    (ht : resp.generation_time_ms < 2 ^ 32) :
    read_u32_be (responseFrame resp img) 28 = resp.generation_time_ms := by
  rw [responseFrame_assoc]
  simp only [write_u32_be, write_u16_be, write_u64_be, read_u32_skip4,
    read_u32_skip2, read_u32_skip8, read_u32_of_chunk4]
  omega

theorem responseFrame_read32 (resp : GenerateResponse) (img : Bytes)
    (hw : resp.image_width < 2 ^ 32) :
    read_u32_be (responseFrame resp img) 32 = resp.image_width := by
  rw [responseFrame_assoc]
  simp only [write_u32_be, write_u16_be, write_u64_be, read_u32_skip4,
    read_u32_skip2, read_u32_skip8, read_u32_of_chunk4]
  omega

theorem responseFrame_read36 (resp : GenerateResponse) (img : Bytes)
    (hh : resp.image_height < 2 ^ 32) :
    read_u32_be (responseFrame resp img) 36 = resp.image_height := by
  rw [responseFrame_assoc]
  simp only [write_u32_be, write_u16_be, write_u64_be, read_u32_skip4,
    read_u32_skip2, read_u32_skip8, read_u32_of_chunk4]
  omega

theorem responseFrame_read40 (resp : GenerateResponse) (img : Bytes)
    (hc : resp.channels < 2 ^ 32) :
    read_u32_be (responseFrame resp img) 40 = resp.channels := by
  rw [responseFrame_assoc]
  simp only [write_u32_be, write_u16_be, write_u64_be, read_u32_skip4,
    read_u32_skip2, read_u32_skip8, read_u32_of_chunk4]
  omega

theorem responseFrame_read44 (resp : GenerateResponse) (img : Bytes)
    (hl : resp.image_data_len < 2 ^ 32) :
    read_u32_be (responseFrame resp img) 44 = resp.image_data_len := by
  rw [responseFrame_assoc]
  simp only [write_u32_be, write_u16_be, write_u64_be, read_u32_skip4,
    read_u32_skip2, read_u32_skip8, read_u32_of_chunk4]
  omega

theorem responseFrame_drop48 (resp : GenerateResponse) (img : Bytes) :
    (responseFrame resp img).drop 48 = img.take resp.image_data_len := by
  rw [responseFrame_assoc]
  simp only [write_u32_be, write_u16_be, write_u64_be, drop_chunk4,
    drop_chunk2, drop_chunk8, List.drop_zero]

theorem responseFrame_length (resp : GenerateResponse) (img : Bytes)
    (hilen : img.length = resp.image_data_len) :
    (responseFrame resp img).length = 48 + resp.image_data_len := by
  rw [responseFrame_assoc]
  simp [write_u32_be, write_u16_be, write_u64_be, List.length_append,
    List.length_take, hilen]
  omega

/-! ## Encode validation and the response round trip (C4, C7) -/

theorem dims_product_le (w h c : Nat) (hw : w ≤ 2048) (hh : h ≤ 2048) (hc : c ≤ 4) :
    w * h * c ≤ 16777216 := by
  calc w * h * c ≤ 2048 * 2048 * 4 := Nat.mul_le_mul (Nat.mul_le_mul hw hh) hc
  _ = 16777216 := by norm_num

theorem dimensionOk_bounds (d : Nat) (hd : dimensionOk d) :
    64 ≤ d ∧ d ≤ 2048 ∧ d % 64 = 0 := by
  unfold dimensionOk SD35_MIN_DIMENSION SD35_MAX_DIMENSION
    SD35_DIMENSION_ALIGNMENT at hd
  exact hd

theorem dim_cond_false (d : Nat) (hd : dimensionOk d) :
    ¬ (d < SD35_MIN_DIMENSION ∨ SD35_MAX_DIMENSION < d ∨
      d % SD35_DIMENSION_ALIGNMENT ≠ 0) := by
  unfold dimensionOk at hd
  unfold SD35_MIN_DIMENSION SD35_MAX_DIMENSION SD35_DIMENSION_ALIGNMENT at hd ⊢
  omega

theorem dim_cond_true (d : Nat) (hd : ¬ dimensionOk d) :
    d < SD35_MIN_DIMENSION ∨ SD35_MAX_DIMENSION < d ∨
      d % SD35_DIMENSION_ALIGNMENT ≠ 0 := by
  unfold dimensionOk at hd
  unfold SD35_MIN_DIMENSION SD35_MAX_DIMENSION SD35_DIMENSION_ALIGNMENT at hd ⊢
  omega

theorem dim_cond_bounds (d : Nat)
    (h : ¬ (d < SD35_MIN_DIMENSION ∨ SD35_MAX_DIMENSION < d ∨
      d % SD35_DIMENSION_ALIGNMENT ≠ 0)) :
    64 ≤ d ∧ d ≤ 2048 ∧ d % 64 = 0 := by
  unfold SD35_MIN_DIMENSION SD35_MAX_DIMENSION SD35_DIMENSION_ALIGNMENT at h
  omega

theorem chan_cond_false {c : Nat} (hch : c = 3 ∨ c = 4) : ¬ (c ≠ 3 ∧ c ≠ 4) := by
  rcases hch with h | h <;> simp [h]

theorem guard1_false (w h : Nat) (hposh : 0 < h) (hwh : w * h ≤ UINT32_MAX) :
    ¬ (UINT32_MAX / h < w) := by
  rw [not_lt, Nat.le_div_iff_mul_le hposh]
  exact hwh

theorem guard2_false (w h c : Nat) (hc : 0 < c) (hwh : w * h < 2 ^ 32)
    (hlen : w * h * c ≤ UINT32_MAX) :
    ¬ (UINT32_MAX / c < w * h % 2 ^ 32) := by
  rw [Nat.mod_eq_of_lt hwh, not_lt, Nat.le_div_iff_mul_le hc]
  exact hlen

theorem prod_mod_eq (w h c : Nat) (hwh : w * h < 2 ^ 32)
    (hlt : w * h * c < 2 ^ 32) :
    w * h % 2 ^ 32 * c % 2 ^ 32 = w * h * c := by
  rw [Nat.mod_eq_of_lt hwh]
  exact Nat.mod_eq_of_lt hlt

/-- A valid shape (both dimensions in range and aligned, 3 or 4 channels)
keeps every product strictly below 2^32, so the C overflow guards never
fire on it. -/
theorem shape_facts (w h c : Nat) (hdw : dimensionOk w) (hdh : dimensionOk h)
    (hch : c = 3 ∨ c = 4) :
    0 < h ∧ 0 < c ∧ w * h < 2 ^ 32 ∧ w * h * c < 2 ^ 32 ∧
      w * h ≤ w * h * c ∧ w * h * c ≤ UINT32_MAX := by
  obtain ⟨hw1, hw2, hw3⟩ := dimensionOk_bounds w hdw
  obtain ⟨hh1, hh2, hh3⟩ := dimensionOk_bounds h hdh
  have hle := dims_product_le w h c hw2 hh2 (by omega)
  have hwhle : w * h ≤ w * h * c := Nat.le_mul_of_pos_right _ (by omega)
  refine ⟨by omega, by omega, by omega, by omega, hwhle, ?_⟩
  unfold UINT32_MAX
  omega

/-- The success path of `encode_generate_response`: on a valid response the
frame is written, the tail of the buffer is preserved, and `out_len` is the
total frame length. -/
theorem encode_generate_response_success (resp : GenerateResponse)
    (img buffer : Bytes) (himg : resp.image_data = some img)
    (hdw : dimensionOk resp.image_width) (hdh : dimensionOk resp.image_height)
    (hch : resp.channels = 3 ∨ resp.channels = 4)
    (hprod : resp.image_data_len =
      resp.image_width * resp.image_height * resp.channels)
    (hover : resp.image_data_len ≤ MAX_MESSAGE_SIZE - 16 - 16)
    (hbuf : 16 + (16 + 16 + resp.image_data_len) ≤ buffer.length) :
    encode_generate_response (some resp) buffer =
      (.ERR_NONE,
        responseFrame resp img ++
          buffer.drop (16 + (16 + 16 + resp.image_data_len)),
        some (16 + (16 + 16 + resp.image_data_len))) := by
  obtain ⟨hposh, hposc, hwh32, hwhc32, hwhle, hwhcle⟩ :=
    shape_facts resp.image_width resp.image_height resp.channels hdw hdh hch
  have hwhU : resp.image_width * resp.image_height ≤ UINT32_MAX :=
    le_trans hwhle hwhcle
  simp only [encode_generate_response, himg]
  rw [if_neg (dim_cond_false _ hdw), if_neg (dim_cond_false _ hdh),
    if_neg (chan_cond_false hch), if_neg (guard1_false _ _ hposh hwhU),
    if_neg (guard2_false _ _ _ hposc hwh32 hwhcle),
    if_neg (by rw [prod_mod_eq _ _ _ hwh32 hwhc32]; exact not_not_intro hprod),
    if_neg (by omega), if_neg (by omega)]

set_option maxHeartbeats 1600000 in
/-- C4: `encode_generate_response` fails with `INVALID_DIMENSIONS` when a
dimension is out of 64..2048 or unaligned or the channel count is not 3
or 4; when the width × height × channels product does not fit in 32 bits
(only possible with an invalid shape, since a valid one caps the product at
16777216); and — for any buffer whatsoever — when the product differs from
the supplied data length.  A frame too large for the buffer fails with
`INTERNAL`, as does a data length pushing the frame over the 10 MiB cap;
dually, any `out_len` the encoder ever reports is at most 10 MiB.  On
success the written bytes are exactly `responseFrame` (header with payload
length 16 + 16 + data length, the three common fields, the four image-meta
fields, then the pixels). -/
theorem weave_c4_encode_response_validation :
    (∀ (resp : GenerateResponse) (img buffer : Bytes),
      resp.image_data = some img →
      (¬ dimensionOk resp.image_width ∨ ¬ dimensionOk resp.image_height ∨
        (resp.channels ≠ 3 ∧ resp.channels ≠ 4)) →
      (encode_generate_response (some resp) buffer).1 = .ERR_INVALID_DIMENSIONS) ∧
    (∀ (resp : GenerateResponse) (img buffer : Bytes),
      resp.image_data = some img →
      2 ^ 32 ≤ resp.image_width * resp.image_height * resp.channels →
      (encode_generate_response (some resp) buffer).1 = .ERR_INVALID_DIMENSIONS) ∧
    (∀ (resp : GenerateResponse) (img : Bytes),
      resp.image_data = some img →
      dimensionOk resp.image_width → dimensionOk resp.image_height →
      (resp.channels = 3 ∨ resp.channels = 4) →
      resp.image_data_len ≠
        resp.image_width * resp.image_height * resp.channels →
      ∀ buffer : Bytes,
        (encode_generate_response (some resp) buffer).1 = .ERR_INVALID_DIMENSIONS) ∧
    (∀ (resp : GenerateResponse) (img buffer : Bytes),
      resp.image_data = some img →
      dimensionOk resp.image_width → dimensionOk resp.image_height →
      (resp.channels = 3 ∨ resp.channels = 4) →
      resp.image_data_len =
        resp.image_width * resp.image_height * resp.channels →
      MAX_MESSAGE_SIZE - 16 - 16 < resp.image_data_len →
      (encode_generate_response (some resp) buffer).1 = .ERR_INTERNAL) ∧
    (∀ (resp : GenerateResponse) (img buffer : Bytes),
      resp.image_data = some img →
      dimensionOk resp.image_width → dimensionOk resp.image_height →
      (resp.channels = 3 ∨ resp.channels = 4) →
      resp.image_data_len =
        resp.image_width * resp.image_height * resp.channels →
      resp.image_data_len ≤ MAX_MESSAGE_SIZE - 16 - 16 →
      buffer.length < 16 + (16 + 16 + resp.image_data_len) →
      (encode_generate_response (some resp) buffer).1 = .ERR_INTERNAL) ∧
    (∀ (resp? : Option GenerateResponse) (buffer : Bytes) (n : Nat),
      (encode_generate_response resp? buffer).2.2 = some n →
      n ≤ MAX_MESSAGE_SIZE) ∧
    (∀ (resp : GenerateResponse) (img buffer : Bytes),
      resp.image_data = some img →
      dimensionOk resp.image_width → dimensionOk resp.image_height →
      (resp.channels = 3 ∨ resp.channels = 4) →
      resp.image_data_len =
        resp.image_width * resp.image_height * resp.channels →
      resp.image_data_len ≤ MAX_MESSAGE_SIZE - 16 - 16 →
      16 + (16 + 16 + resp.image_data_len) ≤ buffer.length →
      encode_generate_response (some resp) buffer =
        (.ERR_NONE,
          responseFrame resp img ++
            buffer.drop (16 + (16 + 16 + resp.image_data_len)),
          some (16 + (16 + 16 + resp.image_data_len)))) := by
  refine ⟨?_, ?_, ?_, ?_, ?_, ?_,
    fun resp img buffer himg hdw hdh hch hprod hover hbuf =>
      encode_generate_response_success resp img buffer himg hdw hdh hch hprod
        hover hbuf⟩
  · intro resp img buffer himg hbad
    rcases hbad with hb | hb | hb
    · simp only [encode_generate_response, himg]
      rw [if_pos (dim_cond_true _ hb)]
    · by_cases hw : dimensionOk resp.image_width
      · simp only [encode_generate_response, himg]
        rw [if_neg (dim_cond_false _ hw), if_pos (dim_cond_true _ hb)]
      · simp only [encode_generate_response, himg]
        rw [if_pos (dim_cond_true _ hw)]
    · by_cases hw : dimensionOk resp.image_width
      · by_cases hh : dimensionOk resp.image_height
        · simp only [encode_generate_response, himg]
          rw [if_neg (dim_cond_false _ hw), if_neg (dim_cond_false _ hh),
            if_pos hb]
        · simp only [encode_generate_response, himg]
          rw [if_neg (dim_cond_false _ hw), if_pos (dim_cond_true _ hh)]
      · simp only [encode_generate_response, himg]
        rw [if_pos (dim_cond_true _ hw)]
  · intro resp img buffer himg hov
    by_cases hw : dimensionOk resp.image_width
    · by_cases hh : dimensionOk resp.image_height
      · by_cases hc : resp.channels = 3 ∨ resp.channels = 4
        · exfalso
          obtain ⟨_, _, _, hlt, _, _⟩ :=
            shape_facts resp.image_width resp.image_height resp.channels
              hw hh hc
          omega
        · simp only [encode_generate_response, himg]
          rw [if_neg (dim_cond_false _ hw), if_neg (dim_cond_false _ hh),
            if_pos (by omega)]
      · simp only [encode_generate_response, himg]
        rw [if_neg (dim_cond_false _ hw), if_pos (dim_cond_true _ hh)]
    · simp only [encode_generate_response, himg]
      rw [if_pos (dim_cond_true _ hw)]
  · intro resp img himg hdw hdh hch hne buffer
    obtain ⟨hposh, hposc, hwh32, hwhc32, hwhle, hwhcle⟩ :=
      shape_facts resp.image_width resp.image_height resp.channels hdw hdh hch
    have hwhU : resp.image_width * resp.image_height ≤ UINT32_MAX :=
      le_trans hwhle hwhcle
    simp only [encode_generate_response, himg]
    rw [if_neg (dim_cond_false _ hdw), if_neg (dim_cond_false _ hdh),
      if_neg (chan_cond_false hch), if_neg (guard1_false _ _ hposh hwhU),
      if_neg (guard2_false _ _ _ hposc hwh32 hwhcle),
      if_pos (by rw [prod_mod_eq _ _ _ hwh32 hwhc32]; exact hne)]
  · intro resp img buffer himg hdw hdh hch hprod hbig
    obtain ⟨hposh, hposc, hwh32, hwhc32, hwhle, hwhcle⟩ :=
      shape_facts resp.image_width resp.image_height resp.channels hdw hdh hch
    have hwhU : resp.image_width * resp.image_height ≤ UINT32_MAX :=
      le_trans hwhle hwhcle
    simp only [encode_generate_response, himg]
    rw [if_neg (dim_cond_false _ hdw), if_neg (dim_cond_false _ hdh),
      if_neg (chan_cond_false hch), if_neg (guard1_false _ _ hposh hwhU),
      if_neg (guard2_false _ _ _ hposc hwh32 hwhcle),
      if_neg (by rw [prod_mod_eq _ _ _ hwh32 hwhc32]; exact not_not_intro hprod),
      if_pos hbig]
  · intro resp img buffer himg hdw hdh hch hprod hover hsmall
    obtain ⟨hposh, hposc, hwh32, hwhc32, hwhle, hwhcle⟩ :=
      shape_facts resp.image_width resp.image_height resp.channels hdw hdh hch
    have hwhU : resp.image_width * resp.image_height ≤ UINT32_MAX :=
      le_trans hwhle hwhcle
    simp only [encode_generate_response, himg]
    rw [if_neg (dim_cond_false _ hdw), if_neg (dim_cond_false _ hdh),
      if_neg (chan_cond_false hch), if_neg (guard1_false _ _ hposh hwhU),
      if_neg (guard2_false _ _ _ hposc hwh32 hwhcle),
      if_neg (by rw [prod_mod_eq _ _ _ hwh32 hwhc32]; exact not_not_intro hprod),
      if_neg (by omega), if_pos hsmall]
  · intro resp? buffer n h
    rcases resp? with _ | resp
    · simp [encode_generate_response] at h
    rcases himg : resp.image_data with _ | img
    · simp [encode_generate_response, himg] at h
    simp only [encode_generate_response, himg] at h
    split_ifs at h with c1 c2 c3 c4 c5 c6 c7 c8
    try dsimp only at h
    try simp only [Option.some.injEq] at h
    obtain ⟨hw1, hw2, hw3⟩ := dim_cond_bounds _ c1
    obtain ⟨hh1, hh2, hh3⟩ := dim_cond_bounds _ c2
    have hwhU : resp.image_width * resp.image_height ≤ UINT32_MAX := by
      rw [not_lt, Nat.le_div_iff_mul_le (by omega : 0 < resp.image_height)] at c4
      exact c4
    have hwh32 : resp.image_width * resp.image_height < 2 ^ 32 := by
      unfold UINT32_MAX at hwhU
      omega
    have hwhcU : resp.image_width * resp.image_height * resp.channels ≤
        UINT32_MAX := by
      rw [Nat.mod_eq_of_lt hwh32, not_lt,
        Nat.le_div_iff_mul_le (by omega : 0 < resp.channels)] at c5
      exact c5
    have hlen : resp.image_data_len =
        resp.image_width * resp.image_height * resp.channels := by
      rw [not_not] at c6
      rw [c6]
      exact prod_mod_eq _ _ _ hwh32 (by unfold UINT32_MAX at hwhcU; omega)
    obtain ⟨a, ha⟩ : ∃ a, resp.image_width = 64 * a := ⟨resp.image_width / 64, by omega⟩
    obtain ⟨b, hb⟩ : ∃ b, resp.image_height = 64 * b := ⟨resp.image_height / 64, by omega⟩
    rw [ha, hb] at hlen
    have hkey : resp.image_data_len = 4096 * (a * b * resp.channels) := by
      rw [hlen]
      ring
    have hc7 : resp.image_data_len ≤ 10485728 := by
      unfold MAX_MESSAGE_SIZE at c7
      omega
    unfold MAX_MESSAGE_SIZE
    omega

set_option maxHeartbeats 1600000 in
/-- C7: decode(encode(R)) = R for every valid response structure — valid
dimensions and channels, data length exactly width × height × channels,
total frame within 10 MiB, the C type ranges on the scalar fields, and a
buffer of exactly the frame size. -/
theorem weave_c7_response_roundtrip (resp : GenerateResponse)
    (img buffer : Bytes) (himg : resp.image_data = some img)
    (hilen : img.length = resp.image_data_len)
    (hdw : dimensionOk resp.image_width) (hdh : dimensionOk resp.image_height)
    (hch : resp.channels = 3 ∨ resp.channels = 4)
    (hprod : resp.image_data_len =
      resp.image_width * resp.image_height * resp.channels)
    (hframe : 16 + 16 + 16 + resp.image_data_len ≤ MAX_MESSAGE_SIZE)
    (hbuf : buffer.length = 16 + 16 + 16 + resp.image_data_len)
    (hrid : resp.request_id < 2 ^ 64) (hst : resp.status < 2 ^ 32)
    (ht : resp.generation_time_ms < 2 ^ 32) :
    decode_generate_response
      ((encode_generate_response (some resp) buffer).2.1) = .ok resp := by
  have hover : resp.image_data_len ≤ MAX_MESSAGE_SIZE - 16 - 16 := by
    unfold MAX_MESSAGE_SIZE at hframe ⊢
    omega
  rw [encode_generate_response_success resp img buffer himg hdw hdh hch hprod
    hover (by omega)]
  have hdropnil : buffer.drop (16 + (16 + 16 + resp.image_data_len)) = [] :=
    List.drop_eq_nil_of_le (by omega)
  simp only [hdropnil, List.append_nil]
  have hlen3232 : resp.image_data_len < 2 ^ 32 - 32 := by
    unfold MAX_MESSAGE_SIZE at hover
    omega
  have hw32 : resp.image_width < 2 ^ 32 := by
    have := dimensionOk_bounds _ hdw
    omega
  have hh32 : resp.image_height < 2 ^ 32 := by
    have := dimensionOk_bounds _ hdh
    omega
  have hc32 : resp.channels < 2 ^ 32 := by omega
  unfold decode_generate_response
  rw [responseFrame_length resp img hilen, responseFrame_read0,
    responseFrame_read4, responseFrame_read6,
    responseFrame_read8 resp img hlen3232,
    responseFrame_read16 resp img hrid, responseFrame_read24 resp img hst,
    responseFrame_read28 resp img ht, responseFrame_read32 resp img hw32,
    responseFrame_read36 resp img hh32, responseFrame_read40 resp img hc32,
    responseFrame_read44 resp img (by omega), responseFrame_drop48]
  rw [if_neg (by omega), if_neg (by simp), if_neg (by simp), if_neg (by simp),
    if_neg (by omega), if_neg (by omega), if_neg (by simp)]
  have himgtake : (img.take resp.image_data_len).take resp.image_data_len =
      img := by
    rw [List.take_take, Nat.min_self, ← hilen, List.take_length]
  rw [himgtake, ← himg]

set_option maxRecDepth 40000 in
set_option maxHeartbeats 1600000 in
/-- Witness for C4 at concrete inputs: an unaligned width, a 32-bit product
overflow, a data-length mismatch on an empty buffer, the 10 MiB rejection,
a too-small buffer, the out_len bound on a successful 64×64×3 encode, and
the success layout itself. -/
theorem weave_c4_encode_response_validation_witness :
    (encode_generate_response (some
      { request_id := 1, status := 200, generation_time_ms := 5,
        image_width := 100, image_height := 64, channels := 3,
        image_data_len := 0, image_data := some [] }) []).1 =
      .ERR_INVALID_DIMENSIONS ∧
    (encode_generate_response (some
      { request_id := 1, status := 200, generation_time_ms := 5,
        image_width := 65536, image_height := 65536, channels := 3,
        image_data_len := 0, image_data := some [] }) []).1 =
      .ERR_INVALID_DIMENSIONS ∧
    (encode_generate_response (some
      { request_id := 1, status := 200, generation_time_ms := 5,
        image_width := 64, image_height := 64, channels := 3,
        image_data_len := 7, image_data := some [] }) []).1 =
      .ERR_INVALID_DIMENSIONS ∧
    (encode_generate_response (some
      { request_id := 1, status := 200, generation_time_ms := 5,
        image_width := 2048, image_height := 2048, channels := 3,
        image_data_len := 12582912, image_data := some [] }) []).1 =
      .ERR_INTERNAL ∧
    (encode_generate_response (some
      { request_id := 1, status := 200, generation_time_ms := 5,
        image_width := 64, image_height := 64, channels := 3,
        image_data_len := 12288, image_data := some [] }) []).1 =
      .ERR_INTERNAL ∧
    (12336 ≤ MAX_MESSAGE_SIZE) ∧
    encode_generate_response (some
      { request_id := 1, status := 200, generation_time_ms := 5,
        image_width := 64, image_height := 64, channels := 3,
        image_data_len := 12288,
        image_data := some (List.replicate 12288 0) })
      (List.replicate 12336 7) =
      (.ERR_NONE,
        responseFrame
          { request_id := 1, status := 200, generation_time_ms := 5,
            image_width := 64, image_height := 64, channels := 3,
            image_data_len := 12288,
            image_data := some (List.replicate 12288 0) }
          (List.replicate 12288 0) ++ (List.replicate 12336 7).drop 12336,
        some 12336) := by
  refine ⟨weave_c4_encode_response_validation.1 _ [] [] rfl
      (Or.inl (by decide)),
    weave_c4_encode_response_validation.2.1 _ [] [] rfl (by decide),
    weave_c4_encode_response_validation.2.2.1 _ [] rfl (by decide) (by decide)
      (by decide) (by decide) [],
    weave_c4_encode_response_validation.2.2.2.1 _ [] [] rfl (by decide)
      (by decide) (by decide) (by decide) (by decide),
    weave_c4_encode_response_validation.2.2.2.2.1 _ [] [] rfl (by decide)
      (by decide) (by decide) (by decide) (by decide) (by decide),
    ?_, ?_⟩
  · have hsucc := weave_c4_encode_response_validation.2.2.2.2.2.2
      { request_id := 1, status := 200, generation_time_ms := 5,
        image_width := 64, image_height := 64, channels := 3,
        image_data_len := 12288,
        image_data := some (List.replicate 12288 0) }
      (List.replicate 12288 0) (List.replicate 12336 7) rfl (by decide)
      (by decide) (by decide) (by decide) (by decide)
      (by rw [List.length_replicate]; decide)
    exact weave_c4_encode_response_validation.2.2.2.2.2.1 _
      (List.replicate 12336 7) 12336 (by rw [hsucc]; decide)
  · exact weave_c4_encode_response_validation.2.2.2.2.2.2 _
      (List.replicate 12288 0) (List.replicate 12336 7) rfl (by decide)
      (by decide) (by decide) (by decide) (by decide)
      (by rw [List.length_replicate]; decide)

set_option maxRecDepth 40000 in
set_option maxHeartbeats 1600000 in
/-- Witness for C7: a 64×64×3 response round-trips through
encode-then-decode. -/
theorem weave_c7_response_roundtrip_witness :
    decode_generate_response
      ((encode_generate_response (some
        { request_id := 12345, status := 200, generation_time_ms := 10000,
          image_width := 64, image_height := 64, channels := 3,
          image_data_len := 12288,
          image_data := some (List.replicate 12288 9) })
        (List.replicate 12336 0)).2.1) = .ok
      { request_id := 12345, status := 200, generation_time_ms := 10000,
        image_width := 64, image_height := 64, channels := 3,
        image_data_len := 12288,
        image_data := some (List.replicate 12288 9) } :=
  weave_c7_response_roundtrip _ (List.replicate 12288 9)
    (List.replicate 12336 0) rfl (by rw [List.length_replicate]) (by decide)
    (by decide) (by decide) (by decide) (by decide)
    (by rw [List.length_replicate]; decide) (by decide) (by decide) (by decide)

end Weave
